import Mathlib

/-!
Shallow embedding of the SecretsManagementConfig operator controller
(`operator/pkg/controller/secretsmanagementconfig_controller.go`) and of the
`v1alpha1` API types it reconciles.  Kubernetes timestamps (`metav1.Time`)
are modelled as `Nat`, with `0` playing the role of the zero time; machine
integers (`int32`/`int64`) are modelled as `Int` (no arithmetic overflow is
relevant to any of the verified properties).  Client calls against the API
server are modelled by an explicit environment (`ClientEnv`) that fixes the
outcome of every read and delete, while writes (create/update) are recorded
as an operation trace (`K8sOp`); mutation calls themselves are modelled as
succeeding.
-/

namespace OcpSecretsManagement

/-- `metav1.Time`, modelled as a natural number; `0` is the zero time
(`Time.IsZero`). -/
abbrev Time := Nat

namespace smv1alpha1

/-- `FeatureConfig` from `api types`: settings for one UI feature. -/
structure FeatureConfig where
  enabled : Bool
  checkRBAC : Bool
deriving DecidableEq

/-- `FeaturesConfig`: all UI feature toggles. -/
structure FeaturesConfig where
  delete : FeatureConfig
  create : FeatureConfig
  edit : FeatureConfig
deriving DecidableEq

/-- `RBACConfig`: RBAC settings managed by the operator. -/
structure RBACConfig where
  createDefaultRoles : Bool
  rolePrefix : String
deriving DecidableEq

/-- `ResourceRequirements` (v1alpha1): CPU and memory requirement strings. -/
structure ResourceRequirements where
  cpu : String
  memory : String
deriving DecidableEq

/-- `ResourceConfig`: resource requests and limits. -/
structure ResourceConfig where
  requests : ResourceRequirements
  limits : ResourceRequirements
deriving DecidableEq

/-- `PluginConfig`: console plugin deployment settings. -/
structure PluginConfig where
  image : String
  imagePullPolicy : String
  replicas : Int
  resources : ResourceConfig
deriving DecidableEq

/-- `OperatorConfig`: settings for a specific peer operator. -/
structure OperatorConfig where
  enabled : Bool
deriving DecidableEq

/-- `OperatorsConfig`: per-operator settings. -/
structure OperatorsConfig where
  certManager : OperatorConfig
  externalSecrets : OperatorConfig
  secretsStoreCSI : OperatorConfig
deriving DecidableEq

/-- `SecretsManagementConfigSpec`: the desired state. -/
structure SecretsManagementConfigSpec where
  features : FeaturesConfig
  rbac : RBACConfig
  plugin : PluginConfig
  operators : OperatorsConfig
deriving DecidableEq

/-- `ClusterRoleStatus`: a ClusterRole created by the operator. -/
structure ClusterRoleStatus where
  name : String
  operations : List String
  created : Time
deriving DecidableEq

/-- `RBACStatus`: status of RBAC resources. -/
structure RBACStatus where
  clusterRoles : List ClusterRoleStatus
deriving DecidableEq

/-- `PluginStatus`: status of the console plugin deployment. -/
structure PluginStatus where
  deploymentName : String
  serviceName : String
  consolePluginName : String
  availableReplicas : Int
  ready : Bool
deriving DecidableEq

/-- `DetectedOperator`: detection status of one peer operator. -/
structure DetectedOperator where
  installed : Bool
  version : String
deriving DecidableEq

/-- `DetectedOperatorsStatus`: detection status of the three peer operators. -/
structure DetectedOperatorsStatus where
  certManager : DetectedOperator
  externalSecrets : DetectedOperator
  secretsStoreCSI : DetectedOperator
deriving DecidableEq

/-- `ConfigPhase` is a string enum in the source. -/
abbrev ConfigPhase := String

/-- `PhasePending` -/
def PhasePending : ConfigPhase := "Pending"

/-- `PhaseDeploying` -/
def PhaseDeploying : ConfigPhase := "Deploying"

/-- `PhaseReady` -/
def PhaseReady : ConfigPhase := "Ready"

/-- `PhaseDegraded` -/
def PhaseDegraded : ConfigPhase := "Degraded"

/-- `PhaseError` -/
def PhaseError : ConfigPhase := "Error"

/-- `ConditionType` is a string in the source. -/
abbrev ConditionType := String

/-- `ConditionPluginDeployed` -/
def ConditionPluginDeployed : ConditionType := "PluginDeployed"

/-- `ConditionRBACConfigured` -/
def ConditionRBACConfigured : ConditionType := "RBACConfigured"

/-- `ConditionConsolePluginRegistered` -/
def ConditionConsolePluginRegistered : ConditionType := "ConsolePluginRegistered"

/-- `Condition`: one observation of the config's state. -/
structure Condition where
  type : ConditionType
  status : String
  reason : String
  message : String
  lastTransitionTime : Time
deriving DecidableEq

/-- `SecretsManagementConfigStatus`: the observed state. -/
structure SecretsManagementConfigStatus where
  phase : ConfigPhase
  observedGeneration : Int
  rbac : RBACStatus
  plugin : PluginStatus
  detectedOperators : DetectedOperatorsStatus
  conditions : List Condition
deriving DecidableEq

/-- `SecretsManagementConfig` with the object metadata the controller reads
(`Name`, `Generation`, `DeletionTimestamp`, `Finalizers`). -/
structure SecretsManagementConfig where
  name : String
  generation : Int
  deletionTimestamp : Option Time
  finalizers : List String
  spec : SecretsManagementConfigSpec
  status : SecretsManagementConfigStatus
deriving DecidableEq

end smv1alpha1

namespace rbacv1

/-- `rbacv1.PolicyRule` (the fields the controller sets). -/
structure PolicyRule where
  apiGroups : List String
  resources : List String
  verbs : List String
deriving DecidableEq

/-- `rbacv1.ClusterRole` (the fields the controller reads or sets;
`creationTimestamp` comes from the object metadata and is `0` on freshly
built desired-state objects). -/
structure ClusterRole where
  name : String
  labels : List (String × String)
  rules : List PolicyRule
  creationTimestamp : Time
deriving DecidableEq

end rbacv1

namespace corev1

/-- `resource.Quantity`: an opaque parsed quantity value.  The controller
never inspects a quantity after parsing, so only its canonical string is
carried. -/
structure Quantity where
  raw : String
deriving DecidableEq

/-- `resource.MustParse` applied to a constant literal (cannot fail for the
literals used by the controller); the value is opaque. -/
def MustParse (s : String) : Quantity := ⟨s⟩

/-- `corev1.ResourceList` restricted to the two keys the controller sets
(`cpu`, `memory`). -/
structure ResourceList where
  cpu : Quantity
  memory : Quantity
deriving DecidableEq

/-- `corev1.ResourceRequirements`. -/
structure ResourceRequirements where
  requests : ResourceList
  limits : ResourceList
deriving DecidableEq

/-- `corev1.ServicePort` (the fields the controller sets). -/
structure ServicePort where
  name : String
  port : Int
  targetPort : Int
  protocol : String
deriving DecidableEq

/-- `corev1.Service` (the fields the controller reads or sets). -/
structure Service where
  name : String
  namespace' : String
  labels : List (String × String)
  annotations : List (String × String)
  selector : List (String × String)
  ports : List ServicePort
deriving DecidableEq

/-- `corev1.ConfigMap` (the fields the controller reads or sets). -/
structure ConfigMap where
  name : String
  namespace' : String
  labels : List (String × String)
  data : List (String × String)
deriving DecidableEq

end corev1

namespace appsv1

/-- A container of the plugin Deployment pod template (the fields the
controller sets).  The fixed security context (non-root, dropped
capabilities, no privilege escalation) and the two volume mounts are
constant in the source and are represented by the volume list on the
deployment. -/
structure Container where
  name : String
  image : String
  imagePullPolicy : String
  containerPort : Int
  resources : corev1.ResourceRequirements
deriving DecidableEq

/-- `appsv1.Deployment` (the fields the controller reads or sets;
`availableReplicas` is the `Status.AvailableReplicas` of a live object and
`0` on freshly built desired-state objects).  `volumes` records each
volume's name and the name of the secret/config-map it sources. -/
structure Deployment where
  name : String
  namespace' : String
  labels : List (String × String)
  replicas : Int
  selector : List (String × String)
  templateLabels : List (String × String)
  serviceAccountName : String
  container : Container
  volumes : List (String × String)
  availableReplicas : Int
deriving DecidableEq

end appsv1

namespace apiextensionsv1

/-- `apiextensionsv1.CustomResourceDefinitionVersion` (the fields the
controller reads). -/
structure CustomResourceDefinitionVersion where
  name : String
  served : Bool
  storage : Bool
deriving DecidableEq

/-- `apiextensionsv1.CustomResourceDefinition` (the fields the controller
reads). -/
structure CustomResourceDefinition where
  name : String
  versions : List CustomResourceDefinitionVersion
deriving DecidableEq

end apiextensionsv1

namespace controller

open smv1alpha1 rbacv1

/-- `FinalizerName` constant. -/
def FinalizerName : String := "secrets-management.openshift.io/finalizer"

/-- `PluginNamespace` constant. -/
def PluginNamespace : String := "openshift-secrets-management"

/-- `PluginName` constant. -/
def PluginName : String := "ocp-secrets-management"

/-- `DefaultPluginImage` constant. -/
def DefaultPluginImage : String := "openshift.io/ocp-secrets-management:latest"

/-- `PluginPort` constant. -/
def PluginPort : Int := 9443

/-- `buildViewClusterRole` — the view ClusterRole. -/
def buildViewClusterRole (pfx : String) : ClusterRole :=
  { name := pfx ++ "-view"
    labels := [("app.kubernetes.io/managed-by", "secrets-management-operator"),
               ("app.kubernetes.io/part-of", "ocp-secrets-management")]
    rules := [
      { apiGroups := ["cert-manager.io"]
        resources := ["certificates", "issuers", "clusterissuers"]
        verbs := ["get", "list", "watch"] },
      { apiGroups := ["external-secrets.io"]
        resources := ["externalsecrets", "clusterexternalsecrets", "secretstores",
                      "clustersecretstores", "pushsecrets"]
        verbs := ["get", "list", "watch"] },
      { apiGroups := ["secrets-store.csi.x-k8s.io"]
        resources := ["secretproviderclasses", "secretproviderclasspodstatuses"]
        verbs := ["get", "list", "watch"] }]
    creationTimestamp := 0 }

/-- `buildDeleteClusterRole` — the delete ClusterRole. -/
def buildDeleteClusterRole (pfx : String) : ClusterRole :=
  { name := pfx ++ "-delete"
    labels := [("app.kubernetes.io/managed-by", "secrets-management-operator"),
               ("app.kubernetes.io/part-of", "ocp-secrets-management")]
    rules := [
      { apiGroups := ["cert-manager.io"]
        resources := ["certificates", "issuers", "clusterissuers"]
        verbs := ["delete"] },
      { apiGroups := ["external-secrets.io"]
        resources := ["externalsecrets", "clusterexternalsecrets", "secretstores",
                      "clustersecretstores", "pushsecrets"]
        verbs := ["delete"] },
      { apiGroups := ["secrets-store.csi.x-k8s.io"]
        resources := ["secretproviderclasses"]
        verbs := ["delete"] }]
    creationTimestamp := 0 }

/-- `buildAdminClusterRole` — the admin ClusterRole. -/
def buildAdminClusterRole (pfx : String) : ClusterRole :=
  { name := pfx ++ "-admin"
    labels := [("app.kubernetes.io/managed-by", "secrets-management-operator"),
               ("app.kubernetes.io/part-of", "ocp-secrets-management")]
    rules := [
      { apiGroups := ["cert-manager.io"]
        resources := ["certificates", "issuers", "clusterissuers"]
        verbs := ["*"] },
      { apiGroups := ["external-secrets.io"]
        resources := ["externalsecrets", "clusterexternalsecrets", "secretstores",
                      "clustersecretstores", "pushsecrets"]
        verbs := ["*"] },
      { apiGroups := ["secrets-store.csi.x-k8s.io"]
        resources := ["secretproviderclasses", "secretproviderclasspodstatuses"]
        verbs := ["*"] }]
    creationTimestamp := 0 }

/-- The resources a ClusterRole's rules cover for a given API group
(concatenated in rule order). -/
def resourcesForGroup (role : ClusterRole) (g : String) : List String :=
  ((role.rules.filter (fun rule => g ∈ rule.apiGroups)).map (fun rule => rule.resources)).flatten

/-- Outcome of a client `Get`: the object, a not-found error
(`errors.IsNotFound`), or any other API error. -/
inductive GetResult (α : Type) where
  | found : α → GetResult α
  | notFound : GetResult α
  | apiError : String → GetResult α
deriving DecidableEq

/-- Outcome of a client `Delete`: success, a not-found error
(`errors.IsNotFound`), or any other API error. -/
inductive DeleteOutcome where
  | ok : DeleteOutcome
  | notFound : DeleteOutcome
  | apiError : String → DeleteOutcome
deriving DecidableEq

/-- `true` unless the outcome is a non-not-found API error. -/
def DeleteOutcome.isBenign : DeleteOutcome → Bool
  | .apiError _ => false
  | _ => true

/-- One write or delete issued against the API server, recorded in call
order.  Reads are not recorded.  A delete op records that the `Delete` call
was made (attempted), whatever its outcome. -/
inductive K8sOp where
  | createNamespace (name : String)
  | createServiceAccount (name ns : String)
  | createService (s : corev1.Service)
  | updateService (s : corev1.Service)
  | createConfigMap (c : corev1.ConfigMap)
  | updateConfigMap (c : corev1.ConfigMap)
  | createClusterRole (role : ClusterRole)
  | updateClusterRole (role : ClusterRole)
  | createDeployment (d : appsv1.Deployment)
  | updateDeployment (d : appsv1.Deployment)
  | createConsolePlugin (name : String)
  | updateConsolePlugin (name : String)
  | updateConfigObject (finalizers : List String)
  | updateStatus (st : SecretsManagementConfigStatus)
  | deleteDeployment (name ns : String)
  | deleteService (name ns : String)
  | deleteServiceAccount (name ns : String)
  | deleteConfigMap (name ns : String)
  | deleteClusterRole (name : String)
  | deleteConsolePlugin (name : String)
deriving DecidableEq

/-- `true` iff the op creates or updates a Deployment. -/
def K8sOp.isDeploymentWrite : K8sOp → Bool
  | .createDeployment _ => true
  | .updateDeployment _ => true
  | _ => false

/-- `true` iff the op creates or updates a ClusterRole. -/
def K8sOp.isClusterRoleWrite : K8sOp → Bool
  | .createClusterRole _ => true
  | .updateClusterRole _ => true
  | _ => false

/-- `true` iff the op is a delete. -/
def K8sOp.isDelete : K8sOp → Bool
  | .deleteDeployment _ _ => true
  | .deleteService _ _ => true
  | .deleteServiceAccount _ _ => true
  | .deleteConfigMap _ _ => true
  | .deleteClusterRole _ => true
  | .deleteConsolePlugin _ => true
  | _ => false

/-- The environment a reconcile runs against: the outcome of every read and
delete the controller may issue (keyed by object name; all the objects live
in fixed namespaces).  `refetchConfig` is the re-`Get` of the configuration
object done by `reconcileDelete`, and `now` is the wall clock
(`metav1.Now()`).  Creates and updates are modelled as succeeding. -/
structure ClientEnv where
  getNamespace : String → GetResult Unit
  getServiceAccount : String → GetResult Unit
  getService : String → GetResult corev1.Service
  getConfigMap : String → GetResult corev1.ConfigMap
  getDeployment : String → GetResult appsv1.Deployment
  getClusterRole : String → GetResult ClusterRole
  getConsolePlugin : String → GetResult Unit
  getCRD : String → GetResult apiextensionsv1.CustomResourceDefinition
  deleteDeployment : String → DeleteOutcome
  deleteService : String → DeleteOutcome
  deleteServiceAccount : String → DeleteOutcome
  deleteConfigMap : String → DeleteOutcome
  deleteClusterRole : String → DeleteOutcome
  deleteConsolePlugin : String → DeleteOutcome
  refetchConfig : GetResult SecretsManagementConfig
  now : Time

/-- Result of one synchronizer: the configuration object as mutated so far,
the trace of writes issued, and the Go `error` return (`none` = `nil`). -/
structure StepOut where
  config : SecretsManagementConfig
  ops : List K8sOp
  err : Option String
deriving DecidableEq

/-- Sequencing of synchronizers as done by the callers: stop at the first
step that returned an error, otherwise feed the mutated config onward and
accumulate the write traces. -/
def StepOut.andThen (a : StepOut) (f : SecretsManagementConfig → StepOut) : StepOut :=
  match a.err with
  | some _ => a
  | none =>
    let b := f a.config
    ⟨b.config, a.ops ++ b.ops, b.err⟩

/-- `operatorCRDs`: CRD names for operator detection (a Go map in the
source; iteration order is immaterial because each key targets a distinct
status field). -/
def operatorCRDs : List (String × String) :=
  [("certManager", "certificates.cert-manager.io"),
   ("externalSecrets", "externalsecrets.external-secrets.io"),
   ("secretsStoreCSI", "secretproviderclasses.secrets-store.csi.x-k8s.io")]

/-- The scan-and-replace loop of `setCondition`: find the first condition
with a matching `Type`; if its `Status` differs replace it in place,
otherwise leave it untouched; append when no `Type` matches. -/
def setConditionList (conds : List Condition) (condition : Condition) : List Condition :=
  match conds with
  | [] => [condition]
  | c :: rest =>
    if c.type = condition.type then
      (if c.status = condition.status then c :: rest else condition :: rest)
    else
      c :: setConditionList rest condition

/-- `setCondition`: set a condition on the config status; `now` stands for
`metav1.Now()`. -/
def setCondition (config : SecretsManagementConfig) (condType : ConditionType)
    (status reason message : String) (now : Time) : SecretsManagementConfig :=
  let condition : Condition :=
    { type := condType, status := status, reason := reason, message := message
      lastTransitionTime := now }
  { config with status.conditions := setConditionList config.status.conditions condition }

/-- The `existingByRole` map of `reconcileRBAC`: built by inserting every
status entry in order (later entries overwrite earlier ones), then looked
up by role name. -/
def lookupExistingCreated (roles : List ClusterRoleStatus) (name : String) : Option Time :=
  roles.foldl (fun acc s => if s.name = name then some s.created else acc) none

/-- The `createdAt` closure of `reconcileRBAC`: prior status value, else the
live role's creation timestamp when the lookup succeeds and the timestamp
is non-zero, else `metav1.Now()`. -/
def createdAt (env : ClientEnv) (existing : List ClusterRoleStatus) (name : String) : Time :=
  match lookupExistingCreated existing name with
  | some t => t
  | none =>
    match env.getClusterRole name with
    | .found role => if role.creationTimestamp ≠ 0 then role.creationTimestamp else env.now
    | _ => env.now

/-- `createOrUpdateClusterRole`: create when absent, otherwise overwrite
only `Rules` and `Labels` on the existing object. -/
def createOrUpdateClusterRole (env : ClientEnv) (role : ClusterRole) :
    List K8sOp × Option String :=
  match env.getClusterRole role.name with
  | .notFound => ([.createClusterRole role], none)
  | .apiError e => ([], some e)
  | .found existing =>
    ([.updateClusterRole { existing with rules := role.rules, labels := role.labels }], none)

/-- `reconcileNamespace`: create the fixed plugin namespace if absent; never
mutate an existing one. -/
def reconcileNamespace (env : ClientEnv) (config : SecretsManagementConfig) : StepOut :=
  match env.getNamespace PluginNamespace with
  | .notFound => ⟨config, [.createNamespace PluginNamespace], none⟩
  | .apiError e => ⟨config, [], some e⟩
  | .found _ => ⟨config, [], none⟩

/-- The role-prefix default of `reconcileRBAC` and `cleanupRBAC`. -/
def rolePrefixOf (config : SecretsManagementConfig) : String :=
  if config.spec.rbac.rolePrefix = "" then "secrets-management"
  else config.spec.rbac.rolePrefix

/-- `reconcileRBAC`: no-op when `CreateDefaultRoles` is false; otherwise
create-or-update the three ClusterRoles, rebuild
`Status.RBAC.ClusterRoles` (preserving recorded `Created` timestamps via
`createdAt`) and set the `RBACConfigured` condition. -/
def reconcileRBAC (env : ClientEnv) (config : SecretsManagementConfig) : StepOut :=
  if !config.spec.rbac.createDefaultRoles then ⟨config, [], none⟩
  else
    let pfx := rolePrefixOf config
    let viewRole := buildViewClusterRole pfx
    let (ops1, err1) := createOrUpdateClusterRole env viewRole
    match err1 with
    | some e => ⟨config, ops1, some e⟩
    | none =>
      let deleteRole := buildDeleteClusterRole pfx
      let (ops2, err2) := createOrUpdateClusterRole env deleteRole
      match err2 with
      | some e => ⟨config, ops1 ++ ops2, some e⟩
      | none =>
        let adminRole := buildAdminClusterRole pfx
        let (ops3, err3) := createOrUpdateClusterRole env adminRole
        match err3 with
        | some e => ⟨config, ops1 ++ ops2 ++ ops3, some e⟩
        | none =>
          let existing := config.status.rbac.clusterRoles
          let config :=
            { config with status.rbac.clusterRoles :=
                [ { name := viewRole.name, operations := ["view"]
                    created := createdAt env existing viewRole.name },
                  { name := deleteRole.name, operations := ["delete"]
                    created := createdAt env existing deleteRole.name },
                  { name := adminRole.name, operations := ["view", "delete", "create", "edit"]
                    created := createdAt env existing adminRole.name } ] }
          let config := setCondition config ConditionRBACConfigured "True" "RolesCreated"
            "Created 3 ClusterRoles" env.now
          ⟨config, ops1 ++ ops2 ++ ops3, none⟩

/-- `reconcileServiceAccount`: create the plugin ServiceAccount if absent. -/
def reconcileServiceAccount (env : ClientEnv) (config : SecretsManagementConfig) : StepOut :=
  match env.getServiceAccount (PluginName ++ "-plugin") with
  | .notFound => ⟨config, [.createServiceAccount (PluginName ++ "-plugin") PluginNamespace], none⟩
  | .apiError e => ⟨config, [], some e⟩
  | .found _ => ⟨config, [], none⟩

/-- `reconcileService`: create the plugin Service if absent, otherwise
overwrite labels, annotations, ports and selector on the existing object. -/
def reconcileService (env : ClientEnv) (config : SecretsManagementConfig) : StepOut :=
  let svc : corev1.Service :=
    { name := PluginName ++ "-plugin"
      namespace' := PluginNamespace
      labels := [("app.kubernetes.io/name", PluginName),
                 ("app.kubernetes.io/part-of", "ocp-secrets-management"),
                 ("app.kubernetes.io/managed-by", "secrets-management-operator")]
      annotations := [("service.alpha.openshift.io/serving-cert-secret-name",
                       PluginName ++ "-plugin-cert")]
      selector := [("app.kubernetes.io/name", PluginName)]
      ports := [{ name := "https", port := PluginPort, targetPort := PluginPort
                  protocol := "TCP" }] }
  match env.getService svc.name with
  | .notFound => ⟨config, [.createService svc], none⟩
  | .apiError e => ⟨config, [], some e⟩
  | .found existing =>
    ⟨config, [.updateService { existing with labels := svc.labels
                                             annotations := svc.annotations
                                             ports := svc.ports
                                             selector := svc.selector }], none⟩

/-- The literal nginx configuration document embedded in
`reconcileNginxConfig` (braces and apostrophes written as `\xNN`
escapes). -/
def nginxConf : String :=
  "\nerror_log /dev/stdout info;\nevents \x7b\x7d\nhttp \x7b\n  access_log /dev/stdout;\n  include /etc/nginx/mime.types;\n  default_type application/octet-stream;\n  server \x7b\n    listen 9443 ssl;\n    ssl_certificate /var/cert/tls.crt;\n    ssl_certificate_key /var/cert/tls.key;\n    root /usr/share/nginx/html;\n\n    # Serve plugin manifest at / so the console gets a valid manifest when fetching basePath\n    location = / \x7b\n      add_header Content-Type application/json;\n      alias /usr/share/nginx/html/plugin-manifest.json;\n    \x7d\n    location = /plugin-manifest.json \x7b\n      add_header Content-Type application/json;\n    \x7d\n\n    location /health \x7b\n      return 200 \x27OK\x27;\n      add_header Content-Type text/plain;\n    \x7d\n  \x7d\n\x7d\n"

/-- `reconcileNginxConfig`: create the nginx ConfigMap if absent, otherwise
overwrite its data. -/
def reconcileNginxConfig (env : ClientEnv) (config : SecretsManagementConfig) : StepOut :=
  let cm : corev1.ConfigMap :=
    { name := PluginName ++ "-nginx-conf"
      namespace' := PluginNamespace
      labels := [("app.kubernetes.io/name", PluginName),
                 ("app.kubernetes.io/part-of", "ocp-secrets-management"),
                 ("app.kubernetes.io/managed-by", "secrets-management-operator")]
      data := [("nginx.conf", nginxConf)] }
  match env.getConfigMap cm.name with
  | .notFound => ⟨config, [.createConfigMap cm], none⟩
  | .apiError e => ⟨config, [], some e⟩
  | .found existing => ⟨config, [.updateConfigMap { existing with data := cm.data }], none⟩

/-- The `parseAndSet` closure of `reconcileDeployment`: empty strings are
skipped, parse failures are wrapped with the offending field path
(`fmt.Errorf("%s: invalid quantity %q: %w", ...)`).  `parseQuantity` stands
for the library function `resource.ParseQuantity`, kept abstract. -/
def parseAndSet (parseQuantity : String → Except String corev1.Quantity)
    (fieldName val : String) : Except String (Option corev1.Quantity) :=
  if val = "" then .ok none
  else
    match parseQuantity val with
    | .ok q => .ok (some q)
    | .error e => .error (fieldName ++ ": invalid quantity \"" ++ val ++ "\": " ++ e)

/-- `reconcileDeployment`: resolve image/replicas/pull-policy/resources from
the spec (with defaults), parse the four optional quantity strings in the
fixed order requests.cpu, requests.memory, limits.cpu, limits.memory
(failing fast on the first malformed one), ensure the nginx ConfigMap,
then create the Deployment when absent, or update its spec and refresh
`Status.Plugin` and the `PluginDeployed` condition when present. -/
def reconcileDeployment (parseQuantity : String → Except String corev1.Quantity)
    (env : ClientEnv) (config : SecretsManagementConfig) : StepOut :=
  let image := if config.spec.plugin.image = "" then DefaultPluginImage
               else config.spec.plugin.image
  let replicas := if config.spec.plugin.replicas = 0 then 2 else config.spec.plugin.replicas
  let imagePullPolicy :=
    if config.spec.plugin.imagePullPolicy = "Always" then "Always"
    else if config.spec.plugin.imagePullPolicy = "Never" then "Never"
    else "IfNotPresent"
  let resources : corev1.ResourceRequirements :=
    { requests := { cpu := corev1.MustParse "10m", memory := corev1.MustParse "50Mi" }
      limits := { cpu := corev1.MustParse "100m", memory := corev1.MustParse "128Mi" } }
  match parseAndSet parseQuantity "spec.plugin.resources.requests.cpu"
      config.spec.plugin.resources.requests.cpu with
  | .error e => ⟨config, [], some e⟩
  | .ok o1 =>
  let resources := match o1 with
    | some q => { resources with requests.cpu := q }
    | none => resources
  match parseAndSet parseQuantity "spec.plugin.resources.requests.memory"
      config.spec.plugin.resources.requests.memory with
  | .error e => ⟨config, [], some e⟩
  | .ok o2 =>
  let resources := match o2 with
    | some q => { resources with requests.memory := q }
    | none => resources
  match parseAndSet parseQuantity "spec.plugin.resources.limits.cpu"
      config.spec.plugin.resources.limits.cpu with
  | .error e => ⟨config, [], some e⟩
  | .ok o3 =>
  let resources := match o3 with
    | some q => { resources with limits.cpu := q }
    | none => resources
  match parseAndSet parseQuantity "spec.plugin.resources.limits.memory"
      config.spec.plugin.resources.limits.memory with
  | .error e => ⟨config, [], some e⟩
  | .ok o4 =>
  let resources := match o4 with
    | some q => { resources with limits.memory := q }
    | none => resources
  let deployment : appsv1.Deployment :=
    { name := PluginName ++ "-plugin"
      namespace' := PluginNamespace
      labels := [("app.kubernetes.io/name", PluginName),
                 ("app.kubernetes.io/part-of", "ocp-secrets-management"),
                 ("app.kubernetes.io/managed-by", "secrets-management-operator")]
      replicas := replicas
      selector := [("app.kubernetes.io/name", PluginName)]
      templateLabels := [("app.kubernetes.io/name", PluginName),
                         ("app.kubernetes.io/part-of", "ocp-secrets-management")]
      serviceAccountName := PluginName ++ "-plugin"
      container := { name := "plugin", image := image, imagePullPolicy := imagePullPolicy
                     containerPort := PluginPort, resources := resources }
      volumes := [("plugin-cert", PluginName ++ "-plugin-cert"),
                  ("nginx-conf", PluginName ++ "-nginx-conf")]
      availableReplicas := 0 }
  let nginx := reconcileNginxConfig env config
  match nginx.err with
  | some e => ⟨config, nginx.ops, some e⟩
  | none =>
  match env.getDeployment deployment.name with
  | .notFound => ⟨config, nginx.ops ++ [.createDeployment deployment], none⟩
  | .apiError e => ⟨config, nginx.ops, some e⟩
  | .found existing =>
    let updated := { existing with replicas := deployment.replicas
                                   selector := deployment.selector
                                   templateLabels := deployment.templateLabels
                                   serviceAccountName := deployment.serviceAccountName
                                   container := deployment.container
                                   volumes := deployment.volumes }
    let config :=
      { config with status.plugin :=
          { deploymentName := deployment.name
            serviceName := PluginName ++ "-plugin"
            consolePluginName := PluginName
            availableReplicas := existing.availableReplicas
            ready := existing.availableReplicas > 0 } }
    let config := setCondition config ConditionPluginDeployed "True" "DeploymentReady"
      "Plugin deployment is ready" env.now
    ⟨config, nginx.ops ++ [.updateDeployment updated], none⟩

/-- `reconcilePluginDeployment`: ServiceAccount, Service and Deployment
sub-syncs, in order, stopping at the first failure. -/
def reconcilePluginDeployment (parseQuantity : String → Except String corev1.Quantity)
    (env : ClientEnv) (config : SecretsManagementConfig) : StepOut :=
  (reconcileServiceAccount env config).andThen (fun c =>
    (reconcileService env c).andThen (fun c2 =>
      reconcileDeployment parseQuantity env c2))

/-- `reconcileConsolePlugin`: create the unstructured ConsolePlugin object
if absent, otherwise update only its spec and labels (the construction
content is opaque to every verified property, so only the object name is
recorded). -/
def reconcileConsolePlugin (env : ClientEnv) (config : SecretsManagementConfig) : StepOut :=
  match env.getConsolePlugin PluginName with
  | .notFound => ⟨config, [.createConsolePlugin PluginName], none⟩
  | .apiError e => ⟨config, [], some e⟩
  | .found _ => ⟨config, [.updateConsolePlugin PluginName], none⟩

/-- The per-operator body of the `detectOperators` loop:
`installed := err == nil`; `version` is the name of the first declared
version whose `Served` flag is true, `""` when not installed or when no
version is served. -/
def detectOperator (res : GetResult apiextensionsv1.CustomResourceDefinition) :
    DetectedOperator :=
  let installed := match res with | .found _ => true | _ => false
  let version :=
    match res with
    | .found crd =>
      if crd.versions.length > 0 then
        (match crd.versions.find? (fun v => v.served) with
         | some v => v.name
         | none => "")
      else ""
    | _ => ""
  { installed := installed, version := version }

/-- `detectOperators`: look up each peer operator's CRD and record the
result in the matching `Status.DetectedOperators` field; always returns
`nil`. -/
def detectOperators (env : ClientEnv) (config : SecretsManagementConfig) : StepOut :=
  let config := operatorCRDs.foldl
    (fun cfg kv =>
      let det := detectOperator (env.getCRD kv.2)
      if kv.1 = "certManager" then
        { cfg with status.detectedOperators.certManager := det }
      else if kv.1 = "externalSecrets" then
        { cfg with status.detectedOperators.externalSecrets := det }
      else if kv.1 = "secretsStoreCSI" then
        { cfg with status.detectedOperators.secretsStoreCSI := det }
      else cfg)
    config
  ⟨config, [], none⟩

/-- One `r.Delete` call during cleanup: the call (`op`) is always recorded
as attempted; `IsNotFound` is swallowed, any other error is returned. -/
def deleteAttempt (outcome : DeleteOutcome) (op : K8sOp) : List K8sOp × Option String :=
  match outcome with
  | .ok => ([op], none)
  | .notFound => ([op], none)
  | .apiError e => ([op], some e)

/-- `cleanupConsolePlugin`: delete the ConsolePlugin object. -/
def cleanupConsolePlugin (env : ClientEnv) (_config : SecretsManagementConfig) :
    List K8sOp × Option String :=
  deleteAttempt (env.deleteConsolePlugin PluginName) (.deleteConsolePlugin PluginName)

/-- `cleanupPluginDeployment`: delete the Deployment, Service,
ServiceAccount and ConfigMap, in order, returning at the first
non-not-found failure. -/
def cleanupPluginDeployment (env : ClientEnv) (_config : SecretsManagementConfig) :
    List K8sOp × Option String :=
  let (ops1, err1) := deleteAttempt (env.deleteDeployment (PluginName ++ "-plugin"))
    (.deleteDeployment (PluginName ++ "-plugin") PluginNamespace)
  match err1 with
  | some e => (ops1, some e)
  | none =>
    let (ops2, err2) := deleteAttempt (env.deleteService (PluginName ++ "-plugin"))
      (.deleteService (PluginName ++ "-plugin") PluginNamespace)
    match err2 with
    | some e => (ops1 ++ ops2, some e)
    | none =>
      let (ops3, err3) := deleteAttempt (env.deleteServiceAccount (PluginName ++ "-plugin"))
        (.deleteServiceAccount (PluginName ++ "-plugin") PluginNamespace)
      match err3 with
      | some e => (ops1 ++ ops2 ++ ops3, some e)
      | none =>
        let (ops4, err4) := deleteAttempt (env.deleteConfigMap (PluginName ++ "-nginx-conf"))
          (.deleteConfigMap (PluginName ++ "-nginx-conf") PluginNamespace)
        (ops1 ++ ops2 ++ ops3 ++ ops4, err4)

/-- The loop body of `cleanupRBAC` over the role-name list, returning at
the first non-not-found failure. -/
def deleteClusterRoles (env : ClientEnv) : List String → List K8sOp × Option String
  | [] => ([], none)
  | name :: rest =>
    let (ops1, err1) := deleteAttempt (env.deleteClusterRole name) (.deleteClusterRole name)
    match err1 with
    | some e => (ops1, some e)
    | none =>
      let (ops2, err2) := deleteClusterRoles env rest
      (ops1 ++ ops2, err2)

/-- `cleanupRBAC`: delete the three prefixed ClusterRoles, in order. -/
def cleanupRBAC (env : ClientEnv) (config : SecretsManagementConfig) :
    List K8sOp × Option String :=
  let pfx := rolePrefixOf config
  deleteClusterRoles env [pfx ++ "-view", pfx ++ "-delete", pfx ++ "-admin"]

/-- Result of one `Reconcile` call: the configuration object as finally
held in memory (`none` when the object was not found), the trace of writes
issued, the requested requeue interval in minutes (`0` = none;
`5 * time.Minute` is recorded as `5`), and the Go `error` return. -/
structure ReconcileOut where
  config : Option SecretsManagementConfig
  ops : List K8sOp
  requeueAfterMinutes : Nat
  err : Option String
deriving DecidableEq

/-- `reconcileDelete`: run the three cleanup routines, logging (ignoring)
their errors; then re-fetch the configuration object and, when it still
exists and carries the finalizer, remove the finalizer and persist. -/
def reconcileDelete (env : ClientEnv) (config : SecretsManagementConfig) : ReconcileOut :=
  let (ops1, _errCP) := cleanupConsolePlugin env config
  let (ops2, _errPD) := cleanupPluginDeployment env config
  let (ops3, _errRB) := cleanupRBAC env config
  let ops := ops1 ++ ops2 ++ ops3
  match env.refetchConfig with
  | .notFound => ⟨none, ops, 0, none⟩
  | .apiError e => ⟨none, ops, 0, some e⟩
  | .found latest =>
    if FinalizerName ∈ latest.finalizers then
      let latest := { latest with finalizers := latest.finalizers.filter (· ≠ FinalizerName) }
      ⟨some latest, ops ++ [.updateConfigObject latest.finalizers], 0, none⟩
    else
      ⟨some latest, ops, 0, none⟩

/-- `updateStatusError`: set `Status.Phase = Error`, persist status, and
return the underlying error. -/
def updateStatusError (config : SecretsManagementConfig) (_e : String) :
    SecretsManagementConfig × List K8sOp :=
  let config := { config with status.phase := PhaseError }
  (config, [.updateStatus config.status])

/-- The four synchronizers of the non-deleting path, in their fixed order:
namespace, RBAC, plugin deployment (ServiceAccount/Service/Deployment),
console plugin. -/
def runSyncs (parseQuantity : String → Except String corev1.Quantity)
    (env : ClientEnv) (config : SecretsManagementConfig) : StepOut :=
  (reconcileNamespace env config).andThen (fun c =>
    (reconcileRBAC env c).andThen (fun c2 =>
      (reconcilePluginDeployment parseQuantity env c2).andThen (fun c3 =>
        reconcileConsolePlugin env c3)))

/-- `Reconcile`: the top-level reconciliation loop, driven by the fetch
result of the configuration object. -/
def Reconcile (parseQuantity : String → Except String corev1.Quantity)
    (env : ClientEnv) (getConfig : GetResult SecretsManagementConfig) : ReconcileOut :=
  match getConfig with
  | .notFound => ⟨none, [], 0, none⟩
  | .apiError e => ⟨none, [], 0, some e⟩
  | .found fetched =>
    let (config, opsA) :=
      if FinalizerName ∈ fetched.finalizers then (fetched, [])
      else
        let c := { fetched with finalizers := fetched.finalizers ++ [FinalizerName] }
        (c, [K8sOp.updateConfigObject c.finalizers])
    if config.deletionTimestamp.isSome then
      let d := reconcileDelete env config
      ⟨d.config, opsA ++ d.ops, d.requeueAfterMinutes, d.err⟩
    else
      let (config, opsB) :=
        if config.status.phase = "" ∨ config.status.phase = PhasePending then
          let c := { config with status.phase := PhaseDeploying }
          (c, [K8sOp.updateStatus c.status])
        else (config, [])
      let s := runSyncs parseQuantity env config
      match s.err with
      | some e =>
        let (c, opsC) := updateStatusError s.config e
        ⟨some c, opsA ++ opsB ++ s.ops ++ opsC, 0, some e⟩
      | none =>
        let d := detectOperators env s.config
        let c := { d.config with status.phase := PhaseReady
                                 status.observedGeneration := config.generation }
        ⟨some c, opsA ++ opsB ++ s.ops ++ d.ops ++ [K8sOp.updateStatus c.status], 5, none⟩

/-- What the claim asserts of one recorded detection result, relative to
the CRD lookup outcome: `Installed` iff the lookup succeeded; when it
succeeded, `Version` is the name of the first declared version whose
served flag is true; when the definition is absent, the record is
`Installed=false, Version=""`. -/
def detectionMatches (res : GetResult apiextensionsv1.CustomResourceDefinition)
    (rec : DetectedOperator) : Prop :=
  (rec.installed = true ↔ ∃ crd, res = .found crd)
  ∧ (∀ crd v, res = .found crd → crd.versions.find? (fun x => x.served) = some v →
      rec.version = v.name)
  ∧ (res = .notFound → rec = ⟨false, ""⟩)

/-- The four optional quantity strings of the spec, paired with their field
paths, in the order `reconcileDeployment` checks them. -/
def quantityFields (config : SecretsManagementConfig) : List (String × String) :=
  [("spec.plugin.resources.requests.cpu", config.spec.plugin.resources.requests.cpu),
   ("spec.plugin.resources.requests.memory", config.spec.plugin.resources.requests.memory),
   ("spec.plugin.resources.limits.cpu", config.spec.plugin.resources.limits.cpu),
   ("spec.plugin.resources.limits.memory", config.spec.plugin.resources.limits.memory)]

/-- A quantity string that `parseAndSet` accepts: empty (skipped) or
parseable. -/
def parsesOk (pq : String → Except String corev1.Quantity) (v : String) : Prop :=
  v = "" ∨ ∃ q, pq v = .ok q

/-- Some of the four quantity fields is non-empty and malformed. -/
def anyQuantityMalformed (pq : String → Except String corev1.Quantity)
    (config : SecretsManagementConfig) : Prop :=
  ∃ fv ∈ quantityFields config, fv.2 ≠ "" ∧ ∃ e, pq fv.2 = .error e

end controller

namespace fixtures

open smv1alpha1 rbacv1 controller

/-- An empty status block (all zero values, as on a fresh object). -/
def emptyStatus : SecretsManagementConfigStatus :=
  { phase := ""
    observedGeneration := 0
    rbac := ⟨[]⟩
    plugin := ⟨"", "", "", 0, false⟩
    detectedOperators := ⟨⟨false, ""⟩, ⟨false, ""⟩, ⟨false, ""⟩⟩
    conditions := [] }

/-- A configuration object like the test fixture `newTestConfig("cluster")`. -/
def testConfig : SecretsManagementConfig :=
  { name := "cluster"
    generation := 1
    deletionTimestamp := none
    finalizers := []
    spec :=
      { features := ⟨⟨true, true⟩, ⟨true, true⟩, ⟨true, true⟩⟩
        rbac := ⟨true, "secrets-management"⟩
        plugin :=
          { image := "openshift.io/ocp-secrets-management:test"
            imagePullPolicy := ""
            replicas := 2
            resources := ⟨⟨"", ""⟩, ⟨"", ""⟩⟩ }
        operators := ⟨⟨true⟩, ⟨true⟩, ⟨true⟩⟩ }
    status := emptyStatus }

/-- An environment where every lookup reports not-found and every delete
succeeds (a fresh, empty cluster). -/
def emptyEnv : ClientEnv :=
  { getNamespace := fun _ => .notFound
    getServiceAccount := fun _ => .notFound
    getService := fun _ => .notFound
    getConfigMap := fun _ => .notFound
    getDeployment := fun _ => .notFound
    getClusterRole := fun _ => .notFound
    getConsolePlugin := fun _ => .notFound
    getCRD := fun _ => .notFound
    deleteDeployment := fun _ => .ok
    deleteService := fun _ => .ok
    deleteServiceAccount := fun _ => .ok
    deleteConfigMap := fun _ => .ok
    deleteClusterRole := fun _ => .ok
    deleteConsolePlugin := fun _ => .ok
    refetchConfig := .notFound
    now := 100 }

/-- A quantity parser that accepts everything except the literal
`"not-a-number"` (stand-in for `resource.ParseQuantity`). -/
def sampleParse : String → Except String corev1.Quantity :=
  fun s => if s = "not-a-number" then .error "unable to parse" else .ok ⟨s⟩

/-- A live plugin Deployment with two available replicas. -/
def liveDeployment : appsv1.Deployment :=
  { name := "ocp-secrets-management-plugin"
    namespace' := "openshift-secrets-management"
    labels := []
    replicas := 2
    selector := []
    templateLabels := []
    serviceAccountName := ""
    container :=
      { name := ""
        image := ""
        imagePullPolicy := ""
        containerPort := 0
        resources := ⟨⟨⟨""⟩, ⟨""⟩⟩, ⟨⟨""⟩, ⟨""⟩⟩⟩ }
    volumes := []
    availableReplicas := 2 }

end fixtures

section Claims

open smv1alpha1 rbacv1 controller fixtures

/-- C1, counterexample: at the default prefix, the delete ClusterRole does
not cover the same resources of the `secrets-store.csi.x-k8s.io` group as
the view ClusterRole (it omits `secretproviderclasspodstatuses`). -/
theorem delete_role_resource_mismatch :
    resourcesForGroup (buildDeleteClusterRole "secrets-management")
        "secrets-store.csi.x-k8s.io"
      ≠ resourcesForGroup (buildViewClusterRole "secrets-management")
        "secrets-store.csi.x-k8s.io" := by
  decide

/-- C1 (amended): for every prefix, the delete ClusterRole's rules grant
only the verb `delete`, the view ClusterRole's rules grant only
get/list/watch, and the admin ClusterRole's rules all grant only the
wildcard verb; the delete role covers the same resources as the view role
for the `cert-manager.io` and `external-secrets.io` groups, but for
`secrets-store.csi.x-k8s.io` it covers only `secretproviderclasses` while
the view role additionally covers `secretproviderclasspodstatuses`; the
admin role covers exactly the view role's resources on all three groups. -/
theorem rbac_role_verbs_and_resources (pfx : String) :
    (∀ rule ∈ (buildDeleteClusterRole pfx).rules, rule.verbs = ["delete"])
    ∧ (∀ rule ∈ (buildViewClusterRole pfx).rules, rule.verbs = ["get", "list", "watch"])
    ∧ (∀ rule ∈ (buildAdminClusterRole pfx).rules, rule.verbs = ["*"])
    ∧ resourcesForGroup (buildDeleteClusterRole pfx) "cert-manager.io"
        = resourcesForGroup (buildViewClusterRole pfx) "cert-manager.io"
    ∧ resourcesForGroup (buildDeleteClusterRole pfx) "external-secrets.io"
        = resourcesForGroup (buildViewClusterRole pfx) "external-secrets.io"
    ∧ resourcesForGroup (buildDeleteClusterRole pfx) "secrets-store.csi.x-k8s.io"
        = ["secretproviderclasses"]
    ∧ resourcesForGroup (buildViewClusterRole pfx) "secrets-store.csi.x-k8s.io"
        = ["secretproviderclasses", "secretproviderclasspodstatuses"]
    ∧ (∀ g ∈ ["cert-manager.io", "external-secrets.io", "secrets-store.csi.x-k8s.io"],
        resourcesForGroup (buildAdminClusterRole pfx) g
          = resourcesForGroup (buildViewClusterRole pfx) g) := by
  simp only [buildDeleteClusterRole, buildViewClusterRole, buildAdminClusterRole,
    resourcesForGroup]
  decide

/-- Witness for C1's theorem at the default prefix: its membership
hypotheses are discharged on the first rule of the delete role and on the
`cert-manager.io` group. -/
theorem rbac_role_verbs_and_resources_witness :
    ({ apiGroups := ["cert-manager.io"]
       resources := ["certificates", "issuers", "clusterissuers"]
       verbs := ["delete"] } : PolicyRule).verbs = ["delete"]
    ∧ resourcesForGroup (buildAdminClusterRole "secrets-management") "cert-manager.io"
        = resourcesForGroup (buildViewClusterRole "secrets-management") "cert-manager.io" :=
  ⟨(rbac_role_verbs_and_resources "secrets-management").1 _ (by decide),
   (rbac_role_verbs_and_resources "secrets-management").2.2.2.2.2.2.2 _ (by decide)⟩

/-- C7: when `CreateDefaultRoles` is false, the RBAC sync is a complete
no-op: the config (so in particular `Status.RBAC.ClusterRoles` and the
conditions list) is unchanged, no write is issued, and no error is
returned. -/
theorem reconcileRBAC_disabled (env : ClientEnv) (config : SecretsManagementConfig)
    (h : config.spec.rbac.createDefaultRoles = false) :
    reconcileRBAC env config = ⟨config, [], none⟩ := by
  simp [reconcileRBAC, h]

/-- Witness for C7's theorem on a concrete config with the flag off. -/
theorem reconcileRBAC_disabled_witness :
    reconcileRBAC emptyEnv
        { testConfig with spec.rbac.createDefaultRoles := false }
      = ⟨{ testConfig with spec.rbac.createDefaultRoles := false }, [], none⟩ :=
  reconcileRBAC_disabled emptyEnv _ rfl

/-- A second call of the condition-list update with the same type and
status is the identity. -/
theorem setConditionList_idem (l : List Condition) (c c' : Condition)
    (ht : c'.type = c.type) (hs : c'.status = c.status) :
    setConditionList (setConditionList l c) c' = setConditionList l c := by
  induction l with
  | nil => simp [setConditionList, ht.symm, hs.symm]
  | cons x rest ih =>
    by_cases hx : x.type = c.type
    · by_cases hxs : x.status = c.status
      · have h1 : setConditionList (x :: rest) c = x :: rest := by
          simp [setConditionList, hx, hxs]
        have h2 : setConditionList (x :: rest) c' = x :: rest := by
          simp [setConditionList, hx.trans ht.symm, hxs.trans hs.symm]
        rw [h1, h2]
      · have h1 : setConditionList (x :: rest) c = c :: rest := by
          simp [setConditionList, hx, hxs]
        have h2 : setConditionList (c :: rest) c' = c :: rest := by
          simp [setConditionList, ht.symm, hs.symm]
        rw [h1, h2]
    · have hx' : ¬ x.type = c'.type := fun h => hx (h.trans ht)
      simp [setConditionList, hx, hx', ih]

/-- When an earlier condition of the matching type has a different status,
the update replaces that entry in place. -/
theorem setConditionList_replace (l1 l2 : List Condition) (x c : Condition)
    (h1 : ∀ y ∈ l1, y.type ≠ c.type) (hx : x.type = c.type) (hs : x.status ≠ c.status) :
    setConditionList (l1 ++ x :: l2) c = l1 ++ c :: l2 := by
  induction l1 with
  | nil => simp [setConditionList, hx, hs]
  | cons y t ih =>
    have hy : y.type ≠ c.type := h1 y (List.mem_cons_self y t)
    simp only [List.cons_append, setConditionList, hy, if_neg hy]
    exact congrArg (y :: ·) (ih (fun z hz => h1 z (List.mem_cons_of_mem y hz)))

/-- When no condition of the matching type exists, the update appends. -/
theorem setConditionList_append (l : List Condition) (c : Condition)
    (h : ∀ y ∈ l, y.type ≠ c.type) :
    setConditionList l c = l ++ [c] := by
  induction l with
  | nil => simp [setConditionList]
  | cons y t ih =>
    have hy : y.type ≠ c.type := h y (List.mem_cons_self y t)
    simp only [List.cons_append, setConditionList, if_neg hy]
    exact congrArg (y :: ·) (ih (fun z hz => h z (List.mem_cons_of_mem y hz)))

/-- C4: (1) calling the condition setter twice with the same Type and
Status leaves the whole object — list length, order and every timestamp —
exactly as after the first call; (2) calling it when a condition of that
Type exists (first occurrence at position `l1.length`) with a different
Status replaces that entry in place, preserving its position and the list
length; (3) calling it when no condition of that Type exists appends a new
entry. -/
theorem setCondition_spec (config : SecretsManagementConfig)
    (t : ConditionType) (s r m : String) (n1 : Time) (r2 m2 : String) (n2 : Time)
    (l l1 l2 : List Condition) (x c : Condition) :
    (setCondition (setCondition config t s r m n1) t s r2 m2 n2
        = setCondition config t s r m n1)
    ∧ ((∀ y ∈ l1, y.type ≠ c.type) → x.type = c.type → x.status ≠ c.status →
        setConditionList (l1 ++ x :: l2) c = l1 ++ c :: l2
          ∧ (setConditionList (l1 ++ x :: l2) c).length = (l1 ++ x :: l2).length)
    ∧ ((∀ y ∈ l, y.type ≠ c.type) → setConditionList l c = l ++ [c]) := by
  refine ⟨?_, fun h1 hx hs => ?_, fun h => setConditionList_append l c h⟩
  · have hi := setConditionList_idem config.status.conditions
      ⟨t, s, r, m, n1⟩ ⟨t, s, r2, m2, n2⟩ rfl rfl
    simp only [setCondition]
    rw [hi]
  · rw [setConditionList_replace l1 l2 x c h1 hx hs]
    simp

/-- Witness for C4's theorem: replacement and append on concrete
condition lists. -/
theorem setCondition_spec_witness :
    setConditionList
        ([⟨"PluginDeployed", "True", "a", "b", 1⟩]
          ++ ⟨"RBACConfigured", "True", "c", "d", 2⟩ :: [])
        ⟨"RBACConfigured", "False", "e", "f", 3⟩
      = [⟨"PluginDeployed", "True", "a", "b", 1⟩]
          ++ ⟨"RBACConfigured", "False", "e", "f", 3⟩ :: []
    ∧ setConditionList [⟨"PluginDeployed", "True", "a", "b", 1⟩]
        ⟨"RBACConfigured", "False", "e", "f", 3⟩
      = [⟨"PluginDeployed", "True", "a", "b", 1⟩]
          ++ [⟨"RBACConfigured", "False", "e", "f", 3⟩] :=
  ⟨((setCondition_spec testConfig "RBACConfigured" "False" "e" "f" 3 "" "" 0
      [] [⟨"PluginDeployed", "True", "a", "b", 1⟩] []
      ⟨"RBACConfigured", "True", "c", "d", 2⟩
      ⟨"RBACConfigured", "False", "e", "f", 3⟩).2.1
      (by decide) (by decide) (by decide)).1,
   (setCondition_spec testConfig "RBACConfigured" "False" "e" "f" 3 "" "" 0
      [⟨"PluginDeployed", "True", "a", "b", 1⟩] [] []
      ⟨"RBACConfigured", "True", "c", "d", 2⟩
      ⟨"RBACConfigured", "False", "e", "f", 3⟩).2.2 (by decide)⟩

/-- C5: (1) on a successful RBAC sync with `CreateDefaultRoles` on, every
rebuilt `Status.RBAC.ClusterRoles` entry whose role name has a `Created`
timestamp recorded in the prior status keeps exactly that timestamp; (2)
with no prior record, `createdAt` resolves to the live role's creation
timestamp when the lookup succeeds and that timestamp is non-zero; (3)
with no prior record and no (non-zero-timestamped) live role, it defaults
to the current time. -/
theorem rbac_created_timestamp_preference (env : ClientEnv)
    (config : SecretsManagementConfig) (name : String) :
    (config.spec.rbac.createDefaultRoles = true →
      (reconcileRBAC env config).err = none →
      ∀ entry ∈ (reconcileRBAC env config).config.status.rbac.clusterRoles,
        ∀ t, lookupExistingCreated config.status.rbac.clusterRoles entry.name = some t →
          entry.created = t)
    ∧ (lookupExistingCreated config.status.rbac.clusterRoles name = none →
        ∀ role, env.getClusterRole name = .found role → role.creationTimestamp ≠ 0 →
          createdAt env config.status.rbac.clusterRoles name = role.creationTimestamp)
    ∧ (lookupExistingCreated config.status.rbac.clusterRoles name = none →
        (∀ role, env.getClusterRole name = .found role → role.creationTimestamp = 0) →
        createdAt env config.status.rbac.clusterRoles name = env.now) := by
  refine ⟨fun hc herr entry hentry t hlook => ?_,
          fun hnone role hrole hnz => ?_,
          fun hnone hz => ?_⟩
  · simp only [reconcileRBAC, hc, Bool.not_true, Bool.false_eq_true, if_false] at herr hentry
    rcases h1 : createOrUpdateClusterRole env (buildViewClusterRole (rolePrefixOf config))
      with ⟨ops1, err1⟩
    rw [h1] at herr hentry
    rcases err1 with _ | e1
    · rcases h2 : createOrUpdateClusterRole env (buildDeleteClusterRole (rolePrefixOf config))
        with ⟨ops2, err2⟩
      rw [h2] at herr hentry
      rcases err2 with _ | e2
      · rcases h3 : createOrUpdateClusterRole env (buildAdminClusterRole (rolePrefixOf config))
          with ⟨ops3, err3⟩
        rw [h3] at herr hentry
        rcases err3 with _ | e3
        · simp only [setCondition] at hentry
          simp only [buildViewClusterRole, buildDeleteClusterRole, buildAdminClusterRole,
            List.mem_cons, List.mem_singleton, List.not_mem_nil, or_false] at hentry
          rcases hentry with h | h | h <;> subst h <;>
            simp only at hlook <;> simp [createdAt, hlook]
        · simp at herr
      · simp at herr
    · simp at herr
  · simp [createdAt, hnone, hrole, hnz]
  · rcases hr : env.getClusterRole name with role | _ | e
    · simp [createdAt, hnone, hr, hz role hr]
    · simp [createdAt, hnone, hr]
    · simp [createdAt, hnone, hr]

/-- Witness for C5's theorem: a prior status entry for the view role is
kept verbatim, and the live-role/now fallbacks fire on a concrete
environment. -/
theorem rbac_created_timestamp_preference_witness :
    (reconcileRBAC { emptyEnv with getClusterRole := fun _ => .found ⟨"x", [], [], 7⟩ }
        { testConfig with status.rbac.clusterRoles :=
            [⟨"secrets-management-view", ["view"], 42⟩] }).err = none
    ∧ (∀ entry ∈ (reconcileRBAC
          { emptyEnv with getClusterRole := fun _ => .found ⟨"x", [], [], 7⟩ }
          { testConfig with status.rbac.clusterRoles :=
              [⟨"secrets-management-view", ["view"], 42⟩] }).config.status.rbac.clusterRoles,
        ∀ t, lookupExistingCreated [⟨"secrets-management-view", ["view"], 42⟩] entry.name = some t →
          entry.created = t)
    ∧ createdAt { emptyEnv with getClusterRole := fun _ => .found ⟨"x", [], [], 7⟩ } [] "n"
        = 7
    ∧ createdAt emptyEnv [] "n" = emptyEnv.now := by
  refine ⟨by decide, ?_, ?_, ?_⟩
  · exact fun entry hentry t hlook =>
      (rbac_created_timestamp_preference
        { emptyEnv with getClusterRole := fun _ => .found ⟨"x", [], [], 7⟩ }
        { testConfig with status.rbac.clusterRoles :=
            [⟨"secrets-management-view", ["view"], 42⟩] } "n").1
        rfl (by decide) entry hentry t hlook
  · exact (rbac_created_timestamp_preference
        { emptyEnv with getClusterRole := fun _ => .found ⟨"x", [], [], 7⟩ }
        testConfig "n").2.1 rfl ⟨"x", [], [], 7⟩ rfl (by decide)
  · exact (rbac_created_timestamp_preference emptyEnv testConfig "n").2.2 rfl
      (fun role h => by simp [emptyEnv] at h)

/-- The first-served-version loop agrees with `List.find?` on the served
flag whenever some version is served. -/
theorem detectOperator_version_eq_find (vs : List apiextensionsv1.CustomResourceDefinitionVersion)
    (v : apiextensionsv1.CustomResourceDefinitionVersion)
    (h : vs.find? (fun x => x.served) = some v) :
    (match vs.find? (fun x => x.served) with
     | some w => w.name
     | none => "") = v.name := by
  rw [h]

/-- The loop body of `detectOperators` satisfies `detectionMatches`. -/
theorem detectOperator_matches (res : GetResult apiextensionsv1.CustomResourceDefinition) :
    detectionMatches res (detectOperator res) := by
  rcases res with crd | _ | e
  · refine ⟨by simp [detectOperator], fun crd2 v hf hv => ?_, by simp⟩
    obtain rfl : crd = crd2 := by injection hf
    have hne : crd.versions.length > 0 := by
      cases hvs : crd.versions with
      | nil => rw [hvs] at hv; simp at hv
      | cons a l => simp [hvs]
    simp [detectOperator, hne, hv]
  · exact ⟨by simp [detectOperator], fun crd v hf => by simp at hf, fun _ => by rfl⟩
  · exact ⟨by simp [detectOperator], fun crd v hf => by simp at hf, fun h => by simp at h⟩

/-- C6: for each of the three fixed peer operators, detection records
`Installed` true exactly when the CRD lookup succeeded; when it succeeded,
`Version` is the first declared version whose served flag is true (declared
order, not semantic order); when the definition is absent, the record is
`Installed=false, Version=""`. -/
theorem detectOperators_records (env : ClientEnv) (config : SecretsManagementConfig) :
    detectionMatches (env.getCRD "certificates.cert-manager.io")
      (detectOperators env config).config.status.detectedOperators.certManager
    ∧ detectionMatches (env.getCRD "externalsecrets.external-secrets.io")
      (detectOperators env config).config.status.detectedOperators.externalSecrets
    ∧ detectionMatches (env.getCRD "secretproviderclasses.secrets-store.csi.x-k8s.io")
      (detectOperators env config).config.status.detectedOperators.secretsStoreCSI := by
  refine ⟨?_, ?_, ?_⟩ <;>
    · simp only [detectOperators, operatorCRDs, List.foldl]
      simp only [reduceIte, String.reduceEq]
      exact detectOperator_matches _

/-- Witness for C6's theorem on a cluster where only the cert-manager CRD
exists, with versions `v1beta1` (not served) and `v1` (served). -/
theorem detectOperators_records_witness :
    (detectOperators
        { emptyEnv with getCRD := fun n =>
            if n = "certificates.cert-manager.io" then
              GetResult.found ⟨"certificates.cert-manager.io",
                      [⟨"v1beta1", false, false⟩, ⟨"v1", true, true⟩]⟩
            else GetResult.notFound }
        testConfig).config.status.detectedOperators.certManager.version = "v1"
    ∧ (detectOperators
        { emptyEnv with getCRD := fun n =>
            if n = "certificates.cert-manager.io" then
              GetResult.found ⟨"certificates.cert-manager.io",
                      [⟨"v1beta1", false, false⟩, ⟨"v1", true, true⟩]⟩
            else GetResult.notFound }
        testConfig).config.status.detectedOperators.externalSecrets
      = ⟨false, ""⟩ := by
  constructor
  · exact (detectOperators_records _ testConfig).1.2.1
      ⟨"certificates.cert-manager.io", [⟨"v1beta1", false, false⟩, ⟨"v1", true, true⟩]⟩
      ⟨"v1", true, true⟩ (by decide) (by decide)
  · exact (detectOperators_records _ testConfig).2.1.2.2 (by decide)

/-- C9, counterexample: on an environment where every CRD lookup fails
with an unexpected (non-not-found) error, `detectOperators` still returns
no error — unexpected lookup failures are not returned from the detection
routine, contradicting the claim. -/
theorem detect_unexpected_error_not_returned :
    ({ emptyEnv with getCRD := fun _ => .apiError "connection refused" } :
        ClientEnv).getCRD "certificates.cert-manager.io" = .apiError "connection refused"
    ∧ (detectOperators { emptyEnv with getCRD := fun _ => .apiError "connection refused" }
        testConfig).err = none := by
  constructor
  · rfl
  · rfl

/-- C9 (amended): operator detection never changes `Status.Phase`, issues
no writes, and always returns success, so it can never abort the parent
reconcile; within detection, absence of a peer CRD is not an error, and an
unexpected lookup failure is not an error either — it is treated exactly
like absence, recording the operator as not installed. -/
theorem detectOperators_never_fails (env : ClientEnv) (config : SecretsManagementConfig) :
    (detectOperators env config).err = none
    ∧ (detectOperators env config).ops = []
    ∧ (detectOperators env config).config.status.phase = config.status.phase
    ∧ (∀ e, env.getCRD "certificates.cert-manager.io" = .apiError e →
        (detectOperators env config).config.status.detectedOperators.certManager
          = ⟨false, ""⟩) := by
  refine ⟨rfl, rfl, by simp [detectOperators, operatorCRDs], fun e he => ?_⟩
  simp only [detectOperators, operatorCRDs, List.foldl]
  simp only [reduceIte, String.reduceEq]
  simp [detectOperator, he]

/-- Witness for C9's theorem: the failing-lookup hypothesis discharged on
the erroring environment. -/
theorem detectOperators_never_fails_witness :
    (detectOperators { emptyEnv with getCRD := fun _ => .apiError "connection refused" }
        testConfig).config.status.detectedOperators.certManager = ⟨false, ""⟩ :=
  (detectOperators_never_fails
    { emptyEnv with getCRD := fun _ => .apiError "connection refused" } testConfig).2.2.2
    "connection refused" rfl

/-- C2, counterexample: when deleting the Deployment fails with a
non-not-found error, the Service (and ServiceAccount/ConfigMap) deletes of
the deletion sub-flow are never attempted — the enumerated cleanup steps
are not all independent.  (The RBAC phase still runs: the view-role delete
is attempted.) -/
theorem cleanup_steps_not_independent :
    (reconcileDelete { emptyEnv with deleteDeployment := fun _ => .apiError "boom" }
        testConfig).ops
      = [.deleteConsolePlugin "ocp-secrets-management",
         .deleteDeployment "ocp-secrets-management-plugin" "openshift-secrets-management",
         .deleteClusterRole "secrets-management-view",
         .deleteClusterRole "secrets-management-delete",
         .deleteClusterRole "secrets-management-admin"]
    ∧ K8sOp.deleteService "ocp-secrets-management-plugin" "openshift-secrets-management"
        ∉ (reconcileDelete { emptyEnv with deleteDeployment := fun _ => .apiError "boom" }
            testConfig).ops := by
  constructor
  · rfl
  · decide

/-- A benign (ok or not-found) delete outcome makes `deleteAttempt` record
the attempt and report success. -/
theorem deleteAttempt_benign (o : DeleteOutcome) (op : K8sOp) (h : o.isBenign = true) :
    deleteAttempt o op = ([op], none) := by
  cases o <;> simp_all [DeleteOutcome.isBenign, deleteAttempt]

/-- The console-plugin cleanup always attempts its one delete. -/
theorem cleanupConsolePlugin_ops (env : ClientEnv) (config : SecretsManagementConfig) :
    (cleanupConsolePlugin env config).1 = [.deleteConsolePlugin PluginName] := by
  rcases h : env.deleteConsolePlugin PluginName with _ | _ | e <;>
    simp [cleanupConsolePlugin, deleteAttempt, h]

/-- The plugin-deployment cleanup always attempts the Deployment delete
first. -/
theorem cleanupPluginDeployment_attempts_deployment (env : ClientEnv)
    (config : SecretsManagementConfig) :
    K8sOp.deleteDeployment (PluginName ++ "-plugin") PluginNamespace
      ∈ (cleanupPluginDeployment env config).1 := by
  rcases h1 : env.deleteDeployment (PluginName ++ "-plugin") with _ | _ | e1 <;>
  rcases h2 : env.deleteService (PluginName ++ "-plugin") with _ | _ | e2 <;>
  rcases h3 : env.deleteServiceAccount (PluginName ++ "-plugin") with _ | _ | e3 <;>
  rcases h4 : env.deleteConfigMap (PluginName ++ "-nginx-conf") with _ | _ | e4 <;>
    simp [cleanupPluginDeployment, deleteAttempt, h1, h2, h3, h4]

/-- The RBAC cleanup always attempts the view-role delete first. -/
theorem cleanupRBAC_attempts_view (env : ClientEnv) (config : SecretsManagementConfig) :
    K8sOp.deleteClusterRole (rolePrefixOf config ++ "-view")
      ∈ (cleanupRBAC env config).1 := by
  rcases h1 : env.deleteClusterRole (rolePrefixOf config ++ "-view") with _ | _ | e1 <;>
  rcases h2 : env.deleteClusterRole (rolePrefixOf config ++ "-delete") with _ | _ | e2 <;>
  rcases h3 : env.deleteClusterRole (rolePrefixOf config ++ "-admin") with _ | _ | e3 <;>
    simp [cleanupRBAC, deleteClusterRoles, deleteAttempt, h1, h2, h3]

/-- Every op attempted by one of the three cleanup routines appears in the
deletion sub-flow's trace, whatever any routine's error was. -/
theorem mem_reconcileDelete_ops (env : ClientEnv) (config : SecretsManagementConfig)
    (op : K8sOp)
    (h : op ∈ (cleanupConsolePlugin env config).1
       ∨ op ∈ (cleanupPluginDeployment env config).1
       ∨ op ∈ (cleanupRBAC env config).1) :
    op ∈ (reconcileDelete env config).ops := by
  rcases hc1 : cleanupConsolePlugin env config with ⟨ops1, e1⟩
  rcases hc2 : cleanupPluginDeployment env config with ⟨ops2, e2⟩
  rcases hc3 : cleanupRBAC env config with ⟨ops3, e3⟩
  rw [hc1, hc2, hc3] at h
  simp only at h
  rcases hr : env.refetchConfig with latest | _ | e
  · by_cases hf : FinalizerName ∈ latest.finalizers <;>
      · simp [reconcileDelete, hc1, hc2, hc3, hr, hf, List.mem_append]
        tauto
  · simp [reconcileDelete, hc1, hc2, hc3, hr, List.mem_append]
    tauto
  · simp [reconcileDelete, hc1, hc2, hc3, hr, List.mem_append]
    tauto

/-- C2 (amended): the three cleanup routines of the deletion sub-flow
(console plugin; plugin Deployment/Service/ServiceAccount/ConfigMap; the
three ClusterRoles) are attempted independently — a failure in one routine
never prevents the following routines from being attempted, and a
not-found result during any delete is treated as success, so on an
environment with only ok/not-found outcomes all eight deletes are
attempted and every routine succeeds.  Within the plugin-deployment
routine, however, a non-not-found failure aborts the remaining deletes of
that routine: if the Deployment delete fails, the Service delete is never
attempted. -/
theorem reconcileDelete_best_effort (env : ClientEnv) (config : SecretsManagementConfig) :
    (K8sOp.deleteConsolePlugin PluginName ∈ (reconcileDelete env config).ops
      ∧ K8sOp.deleteDeployment (PluginName ++ "-plugin") PluginNamespace
          ∈ (reconcileDelete env config).ops
      ∧ K8sOp.deleteClusterRole (rolePrefixOf config ++ "-view")
          ∈ (reconcileDelete env config).ops)
    ∧ ((env.deleteConsolePlugin PluginName).isBenign = true →
       (env.deleteDeployment (PluginName ++ "-plugin")).isBenign = true →
       (env.deleteService (PluginName ++ "-plugin")).isBenign = true →
       (env.deleteServiceAccount (PluginName ++ "-plugin")).isBenign = true →
       (env.deleteConfigMap (PluginName ++ "-nginx-conf")).isBenign = true →
       (env.deleteClusterRole (rolePrefixOf config ++ "-view")).isBenign = true →
       (env.deleteClusterRole (rolePrefixOf config ++ "-delete")).isBenign = true →
       (env.deleteClusterRole (rolePrefixOf config ++ "-admin")).isBenign = true →
        (reconcileDelete env config).ops.filter K8sOp.isDelete
          = [.deleteConsolePlugin PluginName,
             .deleteDeployment (PluginName ++ "-plugin") PluginNamespace,
             .deleteService (PluginName ++ "-plugin") PluginNamespace,
             .deleteServiceAccount (PluginName ++ "-plugin") PluginNamespace,
             .deleteConfigMap (PluginName ++ "-nginx-conf") PluginNamespace,
             .deleteClusterRole (rolePrefixOf config ++ "-view"),
             .deleteClusterRole (rolePrefixOf config ++ "-delete"),
             .deleteClusterRole (rolePrefixOf config ++ "-admin")]
          ∧ (cleanupConsolePlugin env config).2 = none
          ∧ (cleanupPluginDeployment env config).2 = none
          ∧ (cleanupRBAC env config).2 = none)
    ∧ (∀ e, env.deleteDeployment (PluginName ++ "-plugin") = .apiError e →
        K8sOp.deleteService (PluginName ++ "-plugin") PluginNamespace
          ∉ (cleanupPluginDeployment env config).1) := by
  refine ⟨⟨?_, ?_, ?_⟩, fun hb1 hb2 hb3 hb4 hb5 hb6 hb7 hb8 => ?_, fun e he => ?_⟩
  · exact mem_reconcileDelete_ops env config _
      (Or.inl (by rw [cleanupConsolePlugin_ops]; exact List.mem_singleton.mpr rfl))
  · exact mem_reconcileDelete_ops env config _
      (Or.inr (Or.inl (cleanupPluginDeployment_attempts_deployment env config)))
  · exact mem_reconcileDelete_ops env config _
      (Or.inr (Or.inr (cleanupRBAC_attempts_view env config)))
  · have hc1 : cleanupConsolePlugin env config = ([.deleteConsolePlugin PluginName], none) := by
      simp only [cleanupConsolePlugin, deleteAttempt_benign _ _ hb1]
    have hc2 : cleanupPluginDeployment env config
        = ([.deleteDeployment (PluginName ++ "-plugin") PluginNamespace,
            .deleteService (PluginName ++ "-plugin") PluginNamespace,
            .deleteServiceAccount (PluginName ++ "-plugin") PluginNamespace,
            .deleteConfigMap (PluginName ++ "-nginx-conf") PluginNamespace], none) := by
      simp only [cleanupPluginDeployment, deleteAttempt_benign _ _ hb2,
        deleteAttempt_benign _ _ hb3, deleteAttempt_benign _ _ hb4,
        deleteAttempt_benign _ _ hb5]
      rfl
    have hc3 : cleanupRBAC env config
        = ([.deleteClusterRole (rolePrefixOf config ++ "-view"),
            .deleteClusterRole (rolePrefixOf config ++ "-delete"),
            .deleteClusterRole (rolePrefixOf config ++ "-admin")], none) := by
      simp only [cleanupRBAC, deleteClusterRoles, deleteAttempt_benign _ _ hb6,
        deleteAttempt_benign _ _ hb7, deleteAttempt_benign _ _ hb8]
      rfl
    refine ⟨?_, by rw [hc1], by rw [hc2], by rw [hc3]⟩
    rcases hr : env.refetchConfig with latest | _ | e
    · by_cases hf : FinalizerName ∈ latest.finalizers <;>
        simp [reconcileDelete, hc1, hc2, hc3, hr, hf, List.filter, K8sOp.isDelete]
    · simp [reconcileDelete, hc1, hc2, hc3, hr, List.filter, K8sOp.isDelete]
    · simp [reconcileDelete, hc1, hc2, hc3, hr, List.filter, K8sOp.isDelete]
  · simp [cleanupPluginDeployment, deleteAttempt, he]

/-- Witness for C2's theorem on the empty environment, where every delete
succeeds and the Deployment-delete-failure hypothesis is vacuously shown
on a separate failing environment. -/
theorem reconcileDelete_best_effort_witness :
    (reconcileDelete emptyEnv testConfig).ops.filter K8sOp.isDelete
      = [.deleteConsolePlugin PluginName,
         .deleteDeployment (PluginName ++ "-plugin") PluginNamespace,
         .deleteService (PluginName ++ "-plugin") PluginNamespace,
         .deleteServiceAccount (PluginName ++ "-plugin") PluginNamespace,
         .deleteConfigMap (PluginName ++ "-nginx-conf") PluginNamespace,
         .deleteClusterRole (rolePrefixOf testConfig ++ "-view"),
         .deleteClusterRole (rolePrefixOf testConfig ++ "-delete"),
         .deleteClusterRole (rolePrefixOf testConfig ++ "-admin")]
    ∧ K8sOp.deleteService (PluginName ++ "-plugin") PluginNamespace
        ∉ (cleanupPluginDeployment
            { emptyEnv with deleteDeployment := fun _ => .apiError "boom" } testConfig).1 :=
  ⟨((reconcileDelete_best_effort emptyEnv testConfig).2.1
      rfl rfl rfl rfl rfl rfl rfl rfl).1,
   (reconcileDelete_best_effort
      { emptyEnv with deleteDeployment := fun _ => .apiError "boom" } testConfig).2.2
      "boom" rfl⟩

/-- After the condition-list update, some entry carries the written type. -/
theorem setConditionList_exists_type (l : List Condition) (c : Condition) :
    ∃ cond ∈ setConditionList l c, cond.type = c.type := by
  induction l with
  | nil => exact ⟨c, by simp [setConditionList], rfl⟩
  | cons x rest ih =>
    by_cases hx : x.type = c.type
    · by_cases hs : x.status = c.status
      · exact ⟨x, by simp [setConditionList, hx, hs], hx⟩
      · exact ⟨c, by simp [setConditionList, hx, hs], rfl⟩
    · obtain ⟨cond, hm, ht⟩ := ih
      exact ⟨cond, by simp only [setConditionList, if_neg hx]; exact List.mem_cons_of_mem x hm, ht⟩

/-- C10: when the deployment sync succeeds and no Deployment existed, it
creates one and returns immediately: the config object — in particular
`Status.Plugin` and the conditions list (so no `PluginDeployed` condition)
— is exactly as before.  When a Deployment existed, the sync refreshes
`Status.Plugin` from the live object's available-replica count (`Ready`
iff positive) and sets a `PluginDeployed` condition. -/
theorem reconcileDeployment_create_vs_update
    (pq : String → Except String corev1.Quantity) (env : ClientEnv)
    (config : SecretsManagementConfig) :
    (env.getDeployment (PluginName ++ "-plugin") = .notFound →
      (reconcileDeployment pq env config).err = none →
      (reconcileDeployment pq env config).config = config
        ∧ ∃ d, K8sOp.createDeployment d ∈ (reconcileDeployment pq env config).ops)
    ∧ (∀ existing, env.getDeployment (PluginName ++ "-plugin") = .found existing →
        (reconcileDeployment pq env config).err = none →
        (reconcileDeployment pq env config).config.status.plugin
          = { deploymentName := PluginName ++ "-plugin"
              serviceName := PluginName ++ "-plugin"
              consolePluginName := PluginName
              availableReplicas := existing.availableReplicas
              ready := existing.availableReplicas > 0 }
          ∧ ∃ cond ∈ (reconcileDeployment pq env config).config.status.conditions,
              cond.type = ConditionPluginDeployed) := by
  constructor
  · intro hget herr
    rcases h1 : parseAndSet pq "spec.plugin.resources.requests.cpu"
        config.spec.plugin.resources.requests.cpu with e1 | o1
    · simp [reconcileDeployment, h1] at herr
    rcases h2 : parseAndSet pq "spec.plugin.resources.requests.memory"
        config.spec.plugin.resources.requests.memory with e2 | o2
    · simp [reconcileDeployment, h1, h2] at herr
    rcases h3 : parseAndSet pq "spec.plugin.resources.limits.cpu"
        config.spec.plugin.resources.limits.cpu with e3 | o3
    · simp [reconcileDeployment, h1, h2, h3] at herr
    rcases h4 : parseAndSet pq "spec.plugin.resources.limits.memory"
        config.spec.plugin.resources.limits.memory with e4 | o4
    · simp [reconcileDeployment, h1, h2, h3, h4] at herr
    rcases hn : (reconcileNginxConfig env config).err with _ | en
    · constructor
      · simp [reconcileDeployment, h1, h2, h3, h4, hn, hget]
      · simp [reconcileDeployment, h1, h2, h3, h4, hn, hget]
    · simp [reconcileDeployment, h1, h2, h3, h4, hn] at herr
  · intro existing hget herr
    rcases h1 : parseAndSet pq "spec.plugin.resources.requests.cpu"
        config.spec.plugin.resources.requests.cpu with e1 | o1
    · simp [reconcileDeployment, h1] at herr
    rcases h2 : parseAndSet pq "spec.plugin.resources.requests.memory"
        config.spec.plugin.resources.requests.memory with e2 | o2
    · simp [reconcileDeployment, h1, h2] at herr
    rcases h3 : parseAndSet pq "spec.plugin.resources.limits.cpu"
        config.spec.plugin.resources.limits.cpu with e3 | o3
    · simp [reconcileDeployment, h1, h2, h3] at herr
    rcases h4 : parseAndSet pq "spec.plugin.resources.limits.memory"
        config.spec.plugin.resources.limits.memory with e4 | o4
    · simp [reconcileDeployment, h1, h2, h3, h4] at herr
    rcases hn : (reconcileNginxConfig env config).err with _ | en
    · constructor
      · simp [reconcileDeployment, h1, h2, h3, h4, hn, hget, setCondition]
      · have hex := setConditionList_exists_type
          ({ config with status.plugin :=
              { deploymentName := PluginName ++ "-plugin"
                serviceName := PluginName ++ "-plugin"
                consolePluginName := PluginName
                availableReplicas := existing.availableReplicas
                ready := existing.availableReplicas > 0 } }).status.conditions
          ⟨ConditionPluginDeployed, "True", "DeploymentReady",
           "Plugin deployment is ready", env.now⟩
        obtain ⟨cond, hm, ht⟩ := hex
        refine ⟨cond, ?_, ht⟩
        simp [reconcileDeployment, h1, h2, h3, h4, hn, hget, setCondition]
        exact hm
    · simp [reconcileDeployment, h1, h2, h3, h4, hn] at herr

/-- Witness for C10's theorem: on the empty cluster the sync creates the
Deployment and leaves the config untouched; on a cluster with a live
Deployment with 2 available replicas it records ready plugin status. -/
theorem reconcileDeployment_create_vs_update_witness :
    (reconcileDeployment sampleParse emptyEnv testConfig).config = testConfig
    ∧ (reconcileDeployment sampleParse
        { emptyEnv with getDeployment := fun _ => GetResult.found liveDeployment }
        testConfig).config.status.plugin
      = { deploymentName := "ocp-secrets-management-plugin"
          serviceName := "ocp-secrets-management-plugin"
          consolePluginName := "ocp-secrets-management"
          availableReplicas := 2
          ready := true } := by
  constructor
  · exact ((reconcileDeployment_create_vs_update sampleParse emptyEnv
      testConfig).1 rfl (by decide)).1
  · have h := ((reconcileDeployment_create_vs_update sampleParse
      { emptyEnv with getDeployment := fun _ => GetResult.found liveDeployment }
      testConfig).2 liveDeployment rfl (by decide)).1
    rw [h]
    decide

/-- A fine (empty or parseable) field makes `parseAndSet` succeed. -/
theorem parseAndSet_ok (pq : String → Except String corev1.Quantity) (f v : String)
    (h : parsesOk pq v) : ∃ o, parseAndSet pq f v = .ok o := by
  rcases h with h | ⟨q, hq⟩
  · exact ⟨none, by simp [parseAndSet, h]⟩
  · by_cases hv : v = ""
    · exact ⟨none, by simp [parseAndSet, hv]⟩
    · exact ⟨some q, by simp [parseAndSet, hv, hq]⟩

/-- A non-empty malformed field makes `parseAndSet` fail with the field
path in front of the message. -/
theorem parseAndSet_error (pq : String → Except String corev1.Quantity) (f v e : String)
    (hv : v ≠ "") (he : pq v = .error e) :
    parseAndSet pq f v = .error (f ++ ": invalid quantity \"" ++ v ++ "\": " ++ e) := by
  simp [parseAndSet, hv, he]

/-- With some malformed quantity field, the deployment sync fails before
issuing any write and leaves the config untouched. -/
theorem reconcileDeployment_malformed (pq : String → Except String corev1.Quantity)
    (env : ClientEnv) (config : SecretsManagementConfig)
    (h : anyQuantityMalformed pq config) :
    ∃ msg, reconcileDeployment pq env config = ⟨config, [], some msg⟩ := by
  obtain ⟨fv, hmem, hne, e, he⟩ := h
  simp only [quantityFields, List.mem_cons, List.not_mem_nil, or_false] at hmem
  rcases hp1 : parseAndSet pq "spec.plugin.resources.requests.cpu"
      config.spec.plugin.resources.requests.cpu with e1 | o1
  · exact ⟨e1, by simp [reconcileDeployment, hp1]⟩
  rcases hp2 : parseAndSet pq "spec.plugin.resources.requests.memory"
      config.spec.plugin.resources.requests.memory with e2 | o2
  · exact ⟨e2, by simp [reconcileDeployment, hp1, hp2]⟩
  rcases hp3 : parseAndSet pq "spec.plugin.resources.limits.cpu"
      config.spec.plugin.resources.limits.cpu with e3 | o3
  · exact ⟨e3, by simp [reconcileDeployment, hp1, hp2, hp3]⟩
  rcases hp4 : parseAndSet pq "spec.plugin.resources.limits.memory"
      config.spec.plugin.resources.limits.memory with e4 | o4
  · exact ⟨e4, by simp [reconcileDeployment, hp1, hp2, hp3, hp4]⟩
  exfalso
  rcases hmem with hfv | hfv | hfv | hfv <;> subst hfv
  · rw [parseAndSet_error pq _ _ e hne he] at hp1
    exact Except.noConfusion hp1
  · rw [parseAndSet_error pq _ _ e hne he] at hp2
    exact Except.noConfusion hp2
  · rw [parseAndSet_error pq _ _ e hne he] at hp3
    exact Except.noConfusion hp3
  · rw [parseAndSet_error pq _ _ e hne he] at hp4
    exact Except.noConfusion hp4

/-- The namespace sync never touches the config and never writes a
Deployment. -/
theorem reconcileNamespace_frame (env : ClientEnv) (c : SecretsManagementConfig) :
    (reconcileNamespace env c).config = c
    ∧ ∀ op ∈ (reconcileNamespace env c).ops, op.isDeploymentWrite = false := by
  rcases h : env.getNamespace PluginNamespace with _ | _ | e <;>
    simp [reconcileNamespace, h, K8sOp.isDeploymentWrite]

/-- A ClusterRole create-or-update never writes a Deployment. -/
theorem createOrUpdateClusterRole_ops (env : ClientEnv) (role : ClusterRole) :
    ∀ op ∈ (createOrUpdateClusterRole env role).1, op.isDeploymentWrite = false := by
  rcases h : env.getClusterRole role.name with r | _ | e <;>
    simp [createOrUpdateClusterRole, h, K8sOp.isDeploymentWrite]

/-- The RBAC sync never touches the spec and never writes a Deployment. -/
theorem reconcileRBAC_frame (env : ClientEnv) (c : SecretsManagementConfig) :
    (reconcileRBAC env c).config.spec = c.spec
    ∧ ∀ op ∈ (reconcileRBAC env c).ops, op.isDeploymentWrite = false := by
  cases hd : c.spec.rbac.createDefaultRoles
  · simp [reconcileRBAC, hd]
  · have o1 := createOrUpdateClusterRole_ops env (buildViewClusterRole (rolePrefixOf c))
    have o2 := createOrUpdateClusterRole_ops env (buildDeleteClusterRole (rolePrefixOf c))
    have o3 := createOrUpdateClusterRole_ops env (buildAdminClusterRole (rolePrefixOf c))
    rcases h1 : createOrUpdateClusterRole env (buildViewClusterRole (rolePrefixOf c))
      with ⟨ops1, err1⟩
    rcases h2 : createOrUpdateClusterRole env (buildDeleteClusterRole (rolePrefixOf c))
      with ⟨ops2, err2⟩
    rcases h3 : createOrUpdateClusterRole env (buildAdminClusterRole (rolePrefixOf c))
      with ⟨ops3, err3⟩
    rw [h1] at o1; rw [h2] at o2; rw [h3] at o3
    simp only at o1 o2 o3
    rcases err1 with _ | e1
    · rcases err2 with _ | e2
      · rcases err3 with _ | e3
        · constructor
          · simp [reconcileRBAC, hd, h1, h2, h3, setCondition]
          · intro op hop
            simp [reconcileRBAC, hd, h1, h2, h3, setCondition] at hop
            rcases hop with h | h | h
            exacts [o1 op h, o2 op h, o3 op h]
        · constructor
          · simp [reconcileRBAC, hd, h1, h2, h3]
          · intro op hop
            simp [reconcileRBAC, hd, h1, h2, h3] at hop
            rcases hop with h | h | h
            exacts [o1 op h, o2 op h, o3 op h]
      · constructor
        · simp [reconcileRBAC, hd, h1, h2]
        · intro op hop
          simp [reconcileRBAC, hd, h1, h2] at hop
          rcases hop with h | h
          exacts [o1 op h, o2 op h]
    · constructor
      · simp [reconcileRBAC, hd, h1]
      · intro op hop
        simp [reconcileRBAC, hd, h1] at hop
        exact o1 op hop

/-- The ServiceAccount sync never touches the config and never writes a
Deployment. -/
theorem reconcileServiceAccount_frame (env : ClientEnv) (c : SecretsManagementConfig) :
    (reconcileServiceAccount env c).config = c
    ∧ ∀ op ∈ (reconcileServiceAccount env c).ops, op.isDeploymentWrite = false := by
  rcases h : env.getServiceAccount (PluginName ++ "-plugin") with _ | _ | e <;>
    simp [reconcileServiceAccount, h, K8sOp.isDeploymentWrite]

/-- The Service sync never touches the config and never writes a
Deployment. -/
theorem reconcileService_frame (env : ClientEnv) (c : SecretsManagementConfig) :
    (reconcileService env c).config = c
    ∧ ∀ op ∈ (reconcileService env c).ops, op.isDeploymentWrite = false := by
  rcases h : env.getService (PluginName ++ "-plugin") with s | _ | e <;>
    simp [reconcileService, h, K8sOp.isDeploymentWrite]

/-- With some malformed quantity field, the plugin-deployment sync fails
and never writes a Deployment. -/
theorem reconcilePluginDeployment_malformed (pq : String → Except String corev1.Quantity)
    (env : ClientEnv) (c : SecretsManagementConfig)
    (h : anyQuantityMalformed pq c) :
    (reconcilePluginDeployment pq env c).err ≠ none
    ∧ ∀ op ∈ (reconcilePluginDeployment pq env c).ops, op.isDeploymentWrite = false := by
  obtain ⟨hsaCfg, hsaOps⟩ := reconcileServiceAccount_frame env c
  obtain ⟨hsvCfg, hsvOps⟩ := reconcileService_frame env c
  rcases hsaErr : (reconcileServiceAccount env c).err with _ | e1
  · rcases hsvErr : (reconcileService env c).err with _ | e2
    · obtain ⟨msg, hdep⟩ := reconcileDeployment_malformed pq env c h
      constructor
      · simp [reconcilePluginDeployment, StepOut.andThen, hsaErr, hsaCfg, hsvErr, hsvCfg,
          hdep]
      · intro op hop
        simp [reconcilePluginDeployment, StepOut.andThen, hsaErr, hsaCfg, hsvErr, hsvCfg,
          hdep] at hop
        rcases hop with hmem | hmem
        exacts [hsaOps op hmem, hsvOps op hmem]
    · constructor
      · simp [reconcilePluginDeployment, StepOut.andThen, hsaErr, hsaCfg, hsvErr]
      · intro op hop
        simp [reconcilePluginDeployment, StepOut.andThen, hsaErr, hsaCfg, hsvErr] at hop
        rcases hop with hmem | hmem
        exacts [hsaOps op hmem, hsvOps op hmem]
  · constructor
    · simp [reconcilePluginDeployment, StepOut.andThen, hsaErr]
    · intro op hop
      simp [reconcilePluginDeployment, StepOut.andThen, hsaErr] at hop
      exact hsaOps op hop

/-- With some malformed quantity field, the synchronizer sequence fails
and never writes a Deployment. -/
theorem runSyncs_malformed (pq : String → Except String corev1.Quantity)
    (env : ClientEnv) (c : SecretsManagementConfig)
    (h : anyQuantityMalformed pq c) :
    (runSyncs pq env c).err ≠ none
    ∧ ∀ op ∈ (runSyncs pq env c).ops, op.isDeploymentWrite = false := by
  obtain ⟨hnsCfg, hnsOps⟩ := reconcileNamespace_frame env c
  obtain ⟨hrbSpec, hrbOps⟩ := reconcileRBAC_frame env c
  rcases hnsErr : (reconcileNamespace env c).err with _ | e1
  · rcases hrbErr : (reconcileRBAC env c).err with _ | e2
    · have h2 : anyQuantityMalformed pq (reconcileRBAC env c).config := by
        unfold anyQuantityMalformed quantityFields at h ⊢
        rw [hrbSpec]
        exact h
      obtain ⟨hpdErr, hpdOps⟩ :=
        reconcilePluginDeployment_malformed pq env (reconcileRBAC env c).config h2
      rcases hpdE : (reconcilePluginDeployment pq env (reconcileRBAC env c).config).err
        with _ | e3
      · exact absurd hpdE hpdErr
      · constructor
        · simp [runSyncs, StepOut.andThen, hnsErr, hnsCfg, hrbErr, hpdE]
        · intro op hop
          simp [runSyncs, StepOut.andThen, hnsErr, hnsCfg, hrbErr, hpdE] at hop
          rcases hop with hmem | hmem | hmem
          exacts [hnsOps op hmem, hrbOps op hmem, hpdOps op hmem]
    · constructor
      · simp [runSyncs, StepOut.andThen, hnsErr, hnsCfg, hrbErr]
      · intro op hop
        simp [runSyncs, StepOut.andThen, hnsErr, hnsCfg, hrbErr] at hop
        rcases hop with hmem | hmem
        exacts [hnsOps op hmem, hrbOps op hmem]
  · constructor
    · simp [runSyncs, StepOut.andThen, hnsErr]
    · intro op hop
      simp [runSyncs, StepOut.andThen, hnsErr] at hop
      exact hnsOps op hop

/-- Malformedness of a quantity field only depends on the spec. -/
theorem anyQuantityMalformed_spec_eq {pq : String → Except String corev1.Quantity}
    {c c' : SecretsManagementConfig} (hs : c'.spec = c.spec)
    (h : anyQuantityMalformed pq c) : anyQuantityMalformed pq c' := by
  unfold anyQuantityMalformed quantityFields at h ⊢
  rw [hs]
  exact h

/-- With some malformed quantity field, a whole non-deleting reconcile pass
never creates or updates a Deployment. -/
theorem reconcile_no_deployment_write (pq : String → Except String corev1.Quantity)
    (env : ClientEnv) (config : SecretsManagementConfig)
    (hdel : config.deletionTimestamp = none)
    (h : anyQuantityMalformed pq config) :
    ∀ op ∈ (Reconcile pq env (.found config)).ops, op.isDeploymentWrite = false := by
  intro op hop
  have hds : config.deletionTimestamp.isSome = false := by rw [hdel]; rfl
  by_cases hf : FinalizerName ∈ config.finalizers
  · by_cases hph : config.status.phase = "" ∨ config.status.phase = PhasePending
    · obtain ⟨hrsErr, hrsOps⟩ := runSyncs_malformed pq env
        { config with status.phase := PhaseDeploying } (anyQuantityMalformed_spec_eq rfl h)
      simp only [Reconcile, hf, hph, hds, if_true, if_false, updateStatusError,
        Bool.false_eq_true, ite_true, ite_false, reduceIte] at hop
      split at hop
      next e heq =>
        simp only [List.cons_append, List.nil_append, List.mem_append, List.mem_singleton,
          List.mem_cons, List.not_mem_nil, or_false] at hop
        casesm* _ ∨ _ <;>
          first
            | exact hrsOps op (by assumption)
            | simp_all [K8sOp.isDeploymentWrite]
      next heq => exact absurd heq hrsErr
    · obtain ⟨hrsErr, hrsOps⟩ := runSyncs_malformed pq env config h
      simp only [Reconcile, hf, hph, hds, if_true, if_false, updateStatusError,
        Bool.false_eq_true, ite_true, ite_false, reduceIte] at hop
      split at hop
      next e heq =>
        simp only [List.cons_append, List.nil_append, List.mem_append, List.mem_singleton,
          List.mem_cons, List.not_mem_nil, or_false] at hop
        casesm* _ ∨ _ <;>
          first
            | exact hrsOps op (by assumption)
            | simp_all [K8sOp.isDeploymentWrite]
      next heq => exact absurd heq hrsErr
  · by_cases hph : config.status.phase = "" ∨ config.status.phase = PhasePending
    · obtain ⟨hrsErr, hrsOps⟩ := runSyncs_malformed pq env
        { config with finalizers := config.finalizers ++ [FinalizerName]
                      status.phase := PhaseDeploying }
        (anyQuantityMalformed_spec_eq rfl h)
      simp only [Reconcile, hf, hph, hds, if_true, if_false, updateStatusError,
        Bool.false_eq_true, ite_true, ite_false, reduceIte] at hop
      split at hop
      next e heq =>
        simp only [List.cons_append, List.nil_append, List.mem_append, List.mem_singleton,
          List.mem_cons, List.not_mem_nil, or_false] at hop
        casesm* _ ∨ _ <;>
          first
            | exact hrsOps op (by assumption)
            | simp_all [K8sOp.isDeploymentWrite]
      next heq => exact absurd heq hrsErr
    · obtain ⟨hrsErr, hrsOps⟩ := runSyncs_malformed pq env
        { config with finalizers := config.finalizers ++ [FinalizerName] }
        (anyQuantityMalformed_spec_eq rfl h)
      simp only [Reconcile, hf, hph, hds, if_true, if_false, updateStatusError,
        Bool.false_eq_true, ite_true, ite_false, reduceIte] at hop
      split at hop
      next e heq =>
        simp only [List.cons_append, List.nil_append, List.mem_append, List.mem_singleton,
          List.mem_cons, List.not_mem_nil, or_false] at hop
        casesm* _ ∨ _ <;>
          first
            | exact hrsOps op (by assumption)
            | simp_all [K8sOp.isDeploymentWrite]
      next heq => exact absurd heq hrsErr

/-- C3: a non-empty malformed string in any of the four resource-quantity
fields makes the deployment sync fail — before any write, with the config
untouched — with an error message that starts with exactly that field's
path (the first malformed field in check order: requests.cpu,
requests.memory, limits.cpu, limits.memory); and no Deployment object is
created or updated anywhere in that (non-deleting) reconcile pass. -/
theorem reconcileDeployment_quantity_errors
    (pq : String → Except String corev1.Quantity) (env : ClientEnv)
    (config : SecretsManagementConfig) (e : String) :
    (config.spec.plugin.resources.requests.cpu ≠ "" →
      pq config.spec.plugin.resources.requests.cpu = .error e →
      reconcileDeployment pq env config
        = ⟨config, [], some ("spec.plugin.resources.requests.cpu: invalid quantity \""
            ++ config.spec.plugin.resources.requests.cpu ++ "\": " ++ e)⟩)
    ∧ (parsesOk pq config.spec.plugin.resources.requests.cpu →
       config.spec.plugin.resources.requests.memory ≠ "" →
       pq config.spec.plugin.resources.requests.memory = .error e →
       reconcileDeployment pq env config
         = ⟨config, [], some ("spec.plugin.resources.requests.memory: invalid quantity \""
             ++ config.spec.plugin.resources.requests.memory ++ "\": " ++ e)⟩)
    ∧ (parsesOk pq config.spec.plugin.resources.requests.cpu →
       parsesOk pq config.spec.plugin.resources.requests.memory →
       config.spec.plugin.resources.limits.cpu ≠ "" →
       pq config.spec.plugin.resources.limits.cpu = .error e →
       reconcileDeployment pq env config
         = ⟨config, [], some ("spec.plugin.resources.limits.cpu: invalid quantity \""
             ++ config.spec.plugin.resources.limits.cpu ++ "\": " ++ e)⟩)
    ∧ (parsesOk pq config.spec.plugin.resources.requests.cpu →
       parsesOk pq config.spec.plugin.resources.requests.memory →
       parsesOk pq config.spec.plugin.resources.limits.cpu →
       config.spec.plugin.resources.limits.memory ≠ "" →
       pq config.spec.plugin.resources.limits.memory = .error e →
       reconcileDeployment pq env config
         = ⟨config, [], some ("spec.plugin.resources.limits.memory: invalid quantity \""
             ++ config.spec.plugin.resources.limits.memory ++ "\": " ++ e)⟩)
    ∧ (config.deletionTimestamp = none → anyQuantityMalformed pq config →
        ∀ op ∈ (Reconcile pq env (.found config)).ops, op.isDeploymentWrite = false) := by
  refine ⟨fun hv he => ?_, fun hok1 hv he => ?_, fun hok1 hok2 hv he => ?_,
          fun hok1 hok2 hok3 hv he => ?_,
          fun hdel hmal => reconcile_no_deployment_write pq env config hdel hmal⟩
  · simp [reconcileDeployment, parseAndSet_error pq _ _ e hv he]
  · obtain ⟨o1, hp1⟩ := parseAndSet_ok pq "spec.plugin.resources.requests.cpu" _ hok1
    simp [reconcileDeployment, hp1, parseAndSet_error pq _ _ e hv he]
  · obtain ⟨o1, hp1⟩ := parseAndSet_ok pq "spec.plugin.resources.requests.cpu" _ hok1
    obtain ⟨o2, hp2⟩ := parseAndSet_ok pq "spec.plugin.resources.requests.memory" _ hok2
    simp [reconcileDeployment, hp1, hp2, parseAndSet_error pq _ _ e hv he]
  · obtain ⟨o1, hp1⟩ := parseAndSet_ok pq "spec.plugin.resources.requests.cpu" _ hok1
    obtain ⟨o2, hp2⟩ := parseAndSet_ok pq "spec.plugin.resources.requests.memory" _ hok2
    obtain ⟨o3, hp3⟩ := parseAndSet_ok pq "spec.plugin.resources.limits.cpu" _ hok3
    simp [reconcileDeployment, hp1, hp2, hp3, parseAndSet_error pq _ _ e hv he]

/-- Witness for C3's theorem: `requests.cpu` set to `"not-a-number"` makes
the sync fail with the field path in the message, and the full reconcile
pass performs no Deployment write. -/
theorem reconcileDeployment_quantity_errors_witness :
    reconcileDeployment sampleParse emptyEnv
        { testConfig with spec.plugin.resources.requests.cpu := "not-a-number" }
      = ⟨{ testConfig with spec.plugin.resources.requests.cpu := "not-a-number" }, [],
         some ("spec.plugin.resources.requests.cpu: invalid quantity \"not-a-number\": "
           ++ "unable to parse")⟩
    ∧ ∀ op ∈ (Reconcile sampleParse emptyEnv
        (.found { testConfig with spec.plugin.resources.requests.cpu := "not-a-number" })).ops,
        op.isDeploymentWrite = false := by
  constructor
  · exact (reconcileDeployment_quantity_errors sampleParse emptyEnv
      { testConfig with spec.plugin.resources.requests.cpu := "not-a-number" }
      "unable to parse").1 (by decide) rfl
  · exact (reconcileDeployment_quantity_errors sampleParse emptyEnv
      { testConfig with spec.plugin.resources.requests.cpu := "not-a-number" }
      "unable to parse").2.2.2.2 rfl
      ⟨("spec.plugin.resources.requests.cpu", "not-a-number"),
       by simp [quantityFields], by decide, "unable to parse", rfl⟩

/-- The last element survives a cons in front. -/
theorem getLast?_eq_some_cons {α : Type} {x a : α} {l : List α}
    (h : l.getLast? = some x) : (a :: l).getLast? = some x := by
  cases l with
  | nil => cases h
  | cons b t => rw [List.getLast?_cons_cons]; exact h

/-- The last element survives an append in front. -/
theorem getLast?_eq_some_append {α : Type} {x : α} {l₂ : List α} (l₁ : List α)
    (h : l₂.getLast? = some x) : (l₁ ++ l₂).getLast? = some x := by
  have hne : l₂ ≠ [] := by intro hn; rw [hn] at h; cases h
  rw [List.getLast?_append_of_ne_nil l₁ hne]
  exact h

/-- C8: every reconcile of a found, non-deleting configuration object that
returns no error ends with `Status.Phase = Ready` and
`Status.ObservedGeneration` equal to the object's generation, persists that
status as its final write, and requests a timed re-check after 5 minutes. -/
theorem reconcile_success_ready (pq : String → Except String corev1.Quantity)
    (env : ClientEnv) (config : SecretsManagementConfig)
    (hdel : config.deletionTimestamp = none)
    (hok : (Reconcile pq env (.found config)).err = none) :
    (Reconcile pq env (.found config)).requeueAfterMinutes = 5
    ∧ ∃ c, (Reconcile pq env (.found config)).config = some c
        ∧ c.status.phase = PhaseReady
        ∧ c.status.observedGeneration = config.generation
        ∧ (Reconcile pq env (.found config)).ops.getLast?
            = some (K8sOp.updateStatus c.status) := by
  have hds : config.deletionTimestamp.isSome = false := by rw [hdel]; rfl
  by_cases hf : FinalizerName ∈ config.finalizers
  · by_cases hph : config.status.phase = "" ∨ config.status.phase = PhasePending
    · rcases hE : (runSyncs pq env { config with status.phase := PhaseDeploying }).err
        with _ | e
      · simp only [Reconcile, hf, hph, hds, hE, if_true, if_false, Bool.false_eq_true,
          ite_true, ite_false, reduceIte] at hok ⊢
        refine ⟨by trivial, _, rfl, rfl, rfl, ?_⟩
        repeat
          first
            | rfl
            | exact getLast?_eq_some_cons (by assumption)
            | apply getLast?_eq_some_cons
            | apply getLast?_eq_some_append
      · simp only [Reconcile, hf, hph, hds, hE, if_true, if_false, Bool.false_eq_true,
          ite_true, ite_false, reduceIte] at hok
        exact Option.noConfusion hok
    · rcases hE : (runSyncs pq env config).err with _ | e
      · simp only [Reconcile, hf, hph, hds, hE, if_true, if_false, Bool.false_eq_true,
          ite_true, ite_false, reduceIte] at hok ⊢
        refine ⟨by trivial, _, rfl, rfl, rfl, ?_⟩
        repeat
          first
            | rfl
            | exact getLast?_eq_some_cons (by assumption)
            | apply getLast?_eq_some_cons
            | apply getLast?_eq_some_append
      · simp only [Reconcile, hf, hph, hds, hE, if_true, if_false, Bool.false_eq_true,
          ite_true, ite_false, reduceIte] at hok
        exact Option.noConfusion hok
  · by_cases hph : config.status.phase = "" ∨ config.status.phase = PhasePending
    · rcases hE : (runSyncs pq env
          { config with finalizers := config.finalizers ++ [FinalizerName]
                        status.phase := PhaseDeploying }).err with _ | e
      · simp only [Reconcile, hf, hph, hds, hE, if_true, if_false, Bool.false_eq_true,
          ite_true, ite_false, reduceIte] at hok ⊢
        refine ⟨by trivial, _, rfl, rfl, rfl, ?_⟩
        repeat
          first
            | rfl
            | exact getLast?_eq_some_cons (by assumption)
            | apply getLast?_eq_some_cons
            | apply getLast?_eq_some_append
      · simp only [Reconcile, hf, hph, hds, hE, if_true, if_false, Bool.false_eq_true,
          ite_true, ite_false, reduceIte] at hok
        exact Option.noConfusion hok
    · rcases hE : (runSyncs pq env
          { config with finalizers := config.finalizers ++ [FinalizerName] }).err with _ | e
      · simp only [Reconcile, hf, hph, hds, hE, if_true, if_false, Bool.false_eq_true,
          ite_true, ite_false, reduceIte] at hok ⊢
        refine ⟨by trivial, _, rfl, rfl, rfl, ?_⟩
        repeat
          first
            | rfl
            | exact getLast?_eq_some_cons (by assumption)
            | apply getLast?_eq_some_cons
            | apply getLast?_eq_some_append
      · simp only [Reconcile, hf, hph, hds, hE, if_true, if_false, Bool.false_eq_true,
          ite_true, ite_false, reduceIte] at hok
        exact Option.noConfusion hok

/-- Witness for C8's theorem: a full successful reconcile of the test
config on an empty cluster ends Ready at the object's generation with a
5-minute requeue. -/
theorem reconcile_success_ready_witness :
    (Reconcile sampleParse emptyEnv (.found testConfig)).requeueAfterMinutes = 5
    ∧ ∃ c, (Reconcile sampleParse emptyEnv (.found testConfig)).config = some c
        ∧ c.status.phase = PhaseReady
        ∧ c.status.observedGeneration = testConfig.generation
        ∧ (Reconcile sampleParse emptyEnv (.found testConfig)).ops.getLast?
            = some (K8sOp.updateStatus c.status) :=
  reconcile_success_ready sampleParse emptyEnv testConfig rfl (by decide)

end Claims

end OcpSecretsManagement
